import Mathlib

/-!
Verification of the diagnostic-message dispatch and annotation-tracking subsystem
in include/vulkan/vk_layer_logging.h (a Vulkan layer logging header).

The C++ code is shallowly embedded: machine bitmask values become Nat with the
bitwise operations, std::string becomes String, std::vector becomes List,
std::unordered_map becomes an association list, pointers that may be null become
Option, and the C++ callback function pointers become Lean functions returning
Bool (the VkBool32 stop signal).
-/

set_option maxHeartbeats 1000000

/-! ## Vulkan constants (numeric values from the Vulkan headers included by the source) -/

def VK_DEBUG_REPORT_INFORMATION_BIT_EXT : Nat := 0x00000001
def VK_DEBUG_REPORT_WARNING_BIT_EXT : Nat := 0x00000002
def VK_DEBUG_REPORT_PERFORMANCE_WARNING_BIT_EXT : Nat := 0x00000004
def VK_DEBUG_REPORT_ERROR_BIT_EXT : Nat := 0x00000008
def VK_DEBUG_REPORT_DEBUG_BIT_EXT : Nat := 0x00000010

def VK_DEBUG_UTILS_MESSAGE_SEVERITY_VERBOSE_BIT_EXT : Nat := 0x00000001
def VK_DEBUG_UTILS_MESSAGE_SEVERITY_INFO_BIT_EXT : Nat := 0x00000010
def VK_DEBUG_UTILS_MESSAGE_SEVERITY_WARNING_BIT_EXT : Nat := 0x00000100
def VK_DEBUG_UTILS_MESSAGE_SEVERITY_ERROR_BIT_EXT : Nat := 0x00001000

def VK_DEBUG_UTILS_MESSAGE_TYPE_GENERAL_BIT_EXT : Nat := 0x00000001
def VK_DEBUG_UTILS_MESSAGE_TYPE_VALIDATION_BIT_EXT : Nat := 0x00000002
def VK_DEBUG_UTILS_MESSAGE_TYPE_PERFORMANCE_BIT_EXT : Nat := 0x00000004

def VK_OBJECT_TYPE_QUEUE : Nat := 4
def VK_OBJECT_TYPE_COMMAND_BUFFER : Nat := 6

def VK_SUCCESS : Nat := 0

/-- Sentinel identifier kVUIDUndefined from the source (line 72). -/
def kVUIDUndefined : String := "VUID_Undefined"

/-! ## DebugCallbackStatusBits (source lines 76 to 81) -/

def DEBUG_CALLBACK_UTILS : Nat := 0x00000001
def DEBUG_CALLBACK_DEFAULT : Nat := 0x00000002
def DEBUG_CALLBACK_INSTANCE : Nat := 0x00000004

/-! ## FlagTranslator (source lines 246 to 273 and 429 to 446) -/

/-- Embedding of DebugReportFlagsToAnnotFlags (source lines 246 to 273).
The two output parameters da_severity and da_type become the two components of the
returned pair, in that order.  Each conditional of the source accumulates into the
pair with bitwise or.  The default_flag_is_spec parameter of the source is unused
by its body and is dropped here. -/
def DebugReportFlagsToAnnotFlags (dr_flags : Nat) : Nat × Nat :=
  let s0 : Nat × Nat := (0, 0)
  let s1 := if dr_flags &&& VK_DEBUG_REPORT_PERFORMANCE_WARNING_BIT_EXT ≠ 0 then
      (s0.1 ||| VK_DEBUG_UTILS_MESSAGE_SEVERITY_WARNING_BIT_EXT,
       s0.2 ||| VK_DEBUG_UTILS_MESSAGE_TYPE_PERFORMANCE_BIT_EXT)
    else s0
  let s2 := if dr_flags &&& VK_DEBUG_REPORT_DEBUG_BIT_EXT ≠ 0 then
      (s1.1 ||| VK_DEBUG_UTILS_MESSAGE_SEVERITY_VERBOSE_BIT_EXT,
       s1.2 ||| (VK_DEBUG_UTILS_MESSAGE_TYPE_GENERAL_BIT_EXT ||| VK_DEBUG_UTILS_MESSAGE_TYPE_VALIDATION_BIT_EXT))
    else s1
  let s3 := if dr_flags &&& VK_DEBUG_REPORT_INFORMATION_BIT_EXT ≠ 0 then
      (s2.1 ||| VK_DEBUG_UTILS_MESSAGE_SEVERITY_INFO_BIT_EXT,
       s2.2 ||| VK_DEBUG_UTILS_MESSAGE_TYPE_VALIDATION_BIT_EXT)
    else s2
  let s4 := if dr_flags &&& VK_DEBUG_REPORT_WARNING_BIT_EXT ≠ 0 then
      (s3.1 ||| VK_DEBUG_UTILS_MESSAGE_SEVERITY_WARNING_BIT_EXT,
       s3.2 ||| VK_DEBUG_UTILS_MESSAGE_TYPE_VALIDATION_BIT_EXT)
    else s3
  let s5 := if dr_flags &&& VK_DEBUG_REPORT_ERROR_BIT_EXT ≠ 0 then
      (s4.1 ||| VK_DEBUG_UTILS_MESSAGE_SEVERITY_ERROR_BIT_EXT,
       s4.2 ||| VK_DEBUG_UTILS_MESSAGE_TYPE_VALIDATION_BIT_EXT)
    else s4
  s5

/-- Embedding of DebugAnnotFlagsToReportFlags (source lines 429 to 446).
The output parameter dr_flags becomes the return value.  The source is a
priority-ordered if / else if chain. -/
def DebugAnnotFlagsToReportFlags (da_severity da_type : Nat) : Nat :=
  if da_severity &&& VK_DEBUG_UTILS_MESSAGE_SEVERITY_ERROR_BIT_EXT ≠ 0 then
    VK_DEBUG_REPORT_ERROR_BIT_EXT
  else if da_severity &&& VK_DEBUG_UTILS_MESSAGE_SEVERITY_WARNING_BIT_EXT ≠ 0 then
    (if da_type &&& VK_DEBUG_UTILS_MESSAGE_TYPE_PERFORMANCE_BIT_EXT ≠ 0 then
      VK_DEBUG_REPORT_PERFORMANCE_WARNING_BIT_EXT
    else
      VK_DEBUG_REPORT_WARNING_BIT_EXT)
  else if da_severity &&& VK_DEBUG_UTILS_MESSAGE_SEVERITY_INFO_BIT_EXT ≠ 0 then
    VK_DEBUG_REPORT_INFORMATION_BIT_EXT
  else if da_severity &&& VK_DEBUG_UTILS_MESSAGE_SEVERITY_VERBOSE_BIT_EXT ≠ 0 then
    VK_DEBUG_REPORT_DEBUG_BIT_EXT
  else
    0

/-- Written from the words of the specification, for comparison with the source
embedding: the dominant legacy report bit of a legacy flags value under the
priority order of section 4.1 of the spec: error first, then performance-warning,
then warning, then information, then debug; zero when none of the five legacy
report bits is present. -/
def specDominantLegacyBit (f : Nat) : Nat :=
  if f &&& VK_DEBUG_REPORT_ERROR_BIT_EXT ≠ 0 then
    VK_DEBUG_REPORT_ERROR_BIT_EXT
  else if f &&& VK_DEBUG_REPORT_PERFORMANCE_WARNING_BIT_EXT ≠ 0 then
    VK_DEBUG_REPORT_PERFORMANCE_WARNING_BIT_EXT
  else if f &&& VK_DEBUG_REPORT_WARNING_BIT_EXT ≠ 0 then
    VK_DEBUG_REPORT_WARNING_BIT_EXT
  else if f &&& VK_DEBUG_REPORT_INFORMATION_BIT_EXT ≠ 0 then
    VK_DEBUG_REPORT_INFORMATION_BIT_EXT
  else if f &&& VK_DEBUG_REPORT_DEBUG_BIT_EXT ≠ 0 then
    VK_DEBUG_REPORT_DEBUG_BIT_EXT
  else
    0

/-- Masking with a constant below 32 only reads the low five bits, so the argument
can be reduced modulo 32 first. -/
theorem and_mask_mod32 (f c : Nat) (hc : c < 32) : f &&& c = f % 32 &&& c := by
  have h32 : (32 : Nat) = 2 ^ 5 := by norm_num
  apply Nat.eq_of_testBit_eq
  intro i
  rw [Nat.testBit_and, Nat.testBit_and, h32, Nat.testBit_mod_two_pow]
  by_cases hi : i < 5
  · simp [hi]
  · have hci : c.testBit i = false := by
      apply Nat.testBit_lt_two_pow
      calc c < 32 := hc
        _ = 2 ^ 5 := h32
        _ ≤ 2 ^ i := Nat.pow_le_pow_right (by norm_num) (Nat.le_of_not_lt hi)
    simp [hci]

/-- DebugReportFlagsToAnnotFlags reads its argument only through the five legacy
mask tests, so arguments agreeing on those masks give equal results. -/
theorem DebugReportFlagsToAnnotFlags_mask_congr (f g : Nat)
    (h1 : f &&& VK_DEBUG_REPORT_PERFORMANCE_WARNING_BIT_EXT = g &&& VK_DEBUG_REPORT_PERFORMANCE_WARNING_BIT_EXT)
    (h2 : f &&& VK_DEBUG_REPORT_DEBUG_BIT_EXT = g &&& VK_DEBUG_REPORT_DEBUG_BIT_EXT)
    (h3 : f &&& VK_DEBUG_REPORT_INFORMATION_BIT_EXT = g &&& VK_DEBUG_REPORT_INFORMATION_BIT_EXT)
    (h4 : f &&& VK_DEBUG_REPORT_WARNING_BIT_EXT = g &&& VK_DEBUG_REPORT_WARNING_BIT_EXT)
    (h5 : f &&& VK_DEBUG_REPORT_ERROR_BIT_EXT = g &&& VK_DEBUG_REPORT_ERROR_BIT_EXT) :
    DebugReportFlagsToAnnotFlags f = DebugReportFlagsToAnnotFlags g := by
  unfold DebugReportFlagsToAnnotFlags
  rw [h1, h2, h3, h4, h5]

/-- specDominantLegacyBit reads its argument only through the five legacy mask
tests, so arguments agreeing on those masks give equal results. -/
theorem specDominantLegacyBit_mask_congr (f g : Nat)
    (h1 : f &&& VK_DEBUG_REPORT_PERFORMANCE_WARNING_BIT_EXT = g &&& VK_DEBUG_REPORT_PERFORMANCE_WARNING_BIT_EXT)
    (h2 : f &&& VK_DEBUG_REPORT_DEBUG_BIT_EXT = g &&& VK_DEBUG_REPORT_DEBUG_BIT_EXT)
    (h3 : f &&& VK_DEBUG_REPORT_INFORMATION_BIT_EXT = g &&& VK_DEBUG_REPORT_INFORMATION_BIT_EXT)
    (h4 : f &&& VK_DEBUG_REPORT_WARNING_BIT_EXT = g &&& VK_DEBUG_REPORT_WARNING_BIT_EXT)
    (h5 : f &&& VK_DEBUG_REPORT_ERROR_BIT_EXT = g &&& VK_DEBUG_REPORT_ERROR_BIT_EXT) :
    specDominantLegacyBit f = specDominantLegacyBit g := by
  unfold specDominantLegacyBit
  rw [h1, h2, h3, h4, h5]

/-- C5: for every legacy flags value f, DebugAnnotFlagsToReportFlags applied to the
severity and type produced by DebugReportFlagsToAnnotFlags f yields exactly the
single dominant legacy bit of f under the priority order error, then
performance-warning, then warning, then information, then debug, and yields zero
when f contains none of the five legacy report bits. -/
theorem C5_legacy_roundtrip_dominant_bit (f : Nat) :
    DebugAnnotFlagsToReportFlags (DebugReportFlagsToAnnotFlags f).1
      (DebugReportFlagsToAnnotFlags f).2 = specDominantLegacyBit f := by
  have hm : ∀ c : Nat, c < 32 → f &&& c = f % 32 &&& c := fun c hc => and_mask_mod32 f c hc
  rw [DebugReportFlagsToAnnotFlags_mask_congr f (f % 32)
        (hm _ (by norm_num [VK_DEBUG_REPORT_PERFORMANCE_WARNING_BIT_EXT]))
        (hm _ (by norm_num [VK_DEBUG_REPORT_DEBUG_BIT_EXT]))
        (hm _ (by norm_num [VK_DEBUG_REPORT_INFORMATION_BIT_EXT]))
        (hm _ (by norm_num [VK_DEBUG_REPORT_WARNING_BIT_EXT]))
        (hm _ (by norm_num [VK_DEBUG_REPORT_ERROR_BIT_EXT])),
      specDominantLegacyBit_mask_congr f (f % 32)
        (hm _ (by norm_num [VK_DEBUG_REPORT_PERFORMANCE_WARNING_BIT_EXT]))
        (hm _ (by norm_num [VK_DEBUG_REPORT_DEBUG_BIT_EXT]))
        (hm _ (by norm_num [VK_DEBUG_REPORT_INFORMATION_BIT_EXT]))
        (hm _ (by norm_num [VK_DEBUG_REPORT_WARNING_BIT_EXT]))
        (hm _ (by norm_num [VK_DEBUG_REPORT_ERROR_BIT_EXT]))]
  have hlt : f % 32 < 32 := Nat.mod_lt _ (by norm_num)
  set n := f % 32 with hn
  clear_value n
  interval_cases n <;> decide

/-! ## Association-list embedding of std::unordered_map -/

/-- Lookup in an association list: the embedding of unordered_map find. -/
def assocFind {α : Type} (m : List (Nat × α)) (k : Nat) : Option α :=
  match m with
  | [] => none
  | (k2, v) :: rest => if k2 = k then some v else assocFind rest k

/-- Insert-or-assign in an association list: the embedding of map subscript assignment. -/
def assocUpsert {α : Type} (m : List (Nat × α)) (k : Nat) (v : α) : List (Nat × α) :=
  match m with
  | [] => [(k, v)]
  | (k2, v2) :: rest => if k2 = k then (k2, v) :: rest else (k2, v2) :: assocUpsert rest k v

/-- Erase-by-key in an association list: the embedding of unordered_map erase. -/
def assocErase {α : Type} (m : List (Nat × α)) (k : Nat) : List (Nat × α) :=
  match m with
  | [] => []
  | (k2, v2) :: rest => if k2 = k then rest else (k2, v2) :: assocErase rest k

theorem assocFind_upsert_self {α : Type} (m : List (Nat × α)) (k : Nat) (v : α) :
    assocFind (assocUpsert m k v) k = some v := by
  induction m with
  | nil => simp [assocFind, assocUpsert]
  | cons p rest ih =>
    obtain ⟨k2, v2⟩ := p
    by_cases h : k2 = k <;> simp [assocFind, assocUpsert, h, ih]

theorem assocErase_absent {α : Type} (m : List (Nat × α)) (k : Nat)
    (h : assocFind m k = none) : assocErase m k = m := by
  induction m with
  | nil => simp [assocErase]
  | cons p rest ih =>
    obtain ⟨k2, v2⟩ := p
    by_cases hk : k2 = k
    · simp [assocFind, hk] at h
    · simp [assocFind, hk] at h
      simp [assocErase, hk, ih h]

/-! ## Labels (source lines 112 to 166) -/

/-- Model of the input struct VkDebugUtilsLabelEXT as passed by the caller: the
pLabelName pointer may be null, hence Option. -/
structure VkDebugUtilsLabelEXTInfo where
  pLabelName : Option String
  color : List Nat
deriving DecidableEq

/-- Model of the exported VkDebugUtilsLabelEXT produced by LoggingLabel Export:
pLabelName points at the stored (never null) name string.  The four floats of the
color array are never computed with, only copied, so they are carried as opaque
Nat bit patterns. -/
structure VkDebugUtilsLabelEXT where
  pLabelName : String
  color : List Nat
deriving DecidableEq

/-- Embedding of struct LoggingLabel (source lines 113 to 144). -/
structure LoggingLabel where
  name : String
  color : List Nat
deriving DecidableEq

/-- The default LoggingLabel constructor: empty name, zero color. -/
def emptyLoggingLabel : LoggingLabel := { name := "", color := [0, 0, 0, 0] }

/-- LoggingLabel Empty (source line 118): name.empty(). -/
def LoggingLabel.Empty (l : LoggingLabel) : Bool := l.name = ""

/-- LoggingLabel Export (source lines 120 to 125). -/
def LoggingLabel.Export (l : LoggingLabel) : VkDebugUtilsLabelEXT :=
  { pLabelName := l.name, color := l.color }

/-- The LoggingLabel constructor from a label-info pointer (source lines 128 to
135): when the pointer or its pLabelName is null the label is reset to the
default, otherwise name and color are copied. -/
def LoggingLabel.ofInfo : Option VkDebugUtilsLabelEXTInfo → LoggingLabel
  | some info =>
    match info.pLabelName with
    | some n => { name := n, color := info.color }
    | none => emptyLoggingLabel
  | none => emptyLoggingLabel

/-- Embedding of struct LoggingLabelState (source lines 146 to 166). -/
structure LoggingLabelState where
  labels : List LoggingLabel
  insert_label : LoggingLabel
deriving DecidableEq

def emptyLoggingLabelState : LoggingLabelState :=
  { labels := [], insert_label := emptyLoggingLabel }

/-- LoggingLabelState Export (source lines 151 to 165).  The source fills an
output vector from its last index downward: the insert label (when non-empty) is
written first at the last position, then the pushed labels are written at
successively lower positions in push order.  The resulting vector is therefore
the pushed labels in reverse push order followed by the insert label. -/
def LoggingLabelState.Export (s : LoggingLabelState) : List VkDebugUtilsLabelEXT :=
  s.labels.reverse.map LoggingLabel.Export ++
    (if s.insert_label.Empty then [] else [s.insert_label.Export])

/-! ## Callback entries and the shared dispatch state (source lines 83 to 241) -/

/-- Model of the argument list a VK_EXT_debug_report callback receives
(source line 413): flags, object type, object handle, location, message code
(always 0 here), layer prefix string, message string, user data. -/
structure ReportCallbackArgs where
  msg_flags : Nat
  object_type : Nat
  src_object : Nat
  location : Nat
  msg_code : Nat
  layer_pfx : String
  message : String
  user_data : Nat
deriving DecidableEq

/-- Model of VkDebugUtilsObjectNameInfoEXT: object type tag, handle, optional name. -/
structure VkDebugUtilsObjectNameInfoEXT where
  objectType : Nat
  objectHandle : Nat
  pObjectName : Option String
deriving DecidableEq

/-- Model of VkDebugMarkerObjectNameInfoEXT as used by
DebugReportSetMarkerObjectName: handle plus optional name pointer. -/
structure VkDebugMarkerObjectNameInfoEXT where
  object : Nat
  pObjectName : Option String
deriving DecidableEq

/-- Model of VkDebugUtilsMessengerCallbackDataEXT as assembled by debug_log_msg.
The count plus pointer pairs of the source become lists. -/
structure VkDebugUtilsMessengerCallbackDataEXT where
  pMessageIdName : Option String
  messageIdNumber : Nat
  pMessage : String
  queueLabels : List VkDebugUtilsLabelEXT
  cmdBufLabels : List VkDebugUtilsLabelEXT
  objects : List VkDebugUtilsObjectNameInfoEXT
deriving DecidableEq

/-- A debug-report callback function pointer: returns the VkBool32 stop signal. -/
def PFN_vkDebugReportCallbackEXT : Type := ReportCallbackArgs → Bool

/-- A debug-utils messenger function pointer: severity, types, callback data,
user data, returning the VkBool32 stop signal. -/
def PFN_vkDebugUtilsMessengerCallbackEXT : Type :=
  Nat → Nat → VkDebugUtilsMessengerCallbackDataEXT → Nat → Bool

/-- Embedding of struct VkLayerDbgFunctionState (source lines 83 to 102).
Handles are carried as their uint64 values. -/
structure VkLayerDbgFunctionState where
  callback_status : Nat
  debug_report_callback_object : Nat
  debug_report_callback_function_ptr : PFN_vkDebugReportCallbackEXT
  debug_report_msg_flags : Nat
  debug_utils_callback_object : Nat
  debug_utils_msg_flags : Nat
  debug_utils_msg_type : Nat
  debug_utils_callback_function_ptr : PFN_vkDebugUtilsMessengerCallbackEXT
  pUserData : Nat

/-- IsUtils (source line 99). -/
def VkLayerDbgFunctionState.IsUtils (s : VkLayerDbgFunctionState) : Bool :=
  s.callback_status &&& DEBUG_CALLBACK_UTILS != 0

/-- IsDefault (source line 100). -/
def VkLayerDbgFunctionState.IsDefault (s : VkLayerDbgFunctionState) : Bool :=
  s.callback_status &&& DEBUG_CALLBACK_DEFAULT != 0

/-- IsInstance (source line 101). -/
def VkLayerDbgFunctionState.IsInstance (s : VkLayerDbgFunctionState) : Bool :=
  s.callback_status &&& DEBUG_CALLBACK_INSTANCE != 0

/-- Model of VkDebugUtilsMessengerCreateInfoEXT as read by layer_create_callback. -/
structure VkDebugUtilsMessengerCreateInfoEXT where
  messageSeverity : Nat
  messageType : Nat
  pfnUserCallback : PFN_vkDebugUtilsMessengerCallbackEXT
  pUserData : Nat

/-- Model of VkDebugReportCallbackCreateInfoEXT as read by layer_create_callback. -/
structure VkDebugReportCallbackCreateInfoEXT where
  flags : Nat
  pfnCallback : PFN_vkDebugReportCallbackEXT
  pUserData : Nat

/-- Modelled from the spec: the instance pNext extension chain scanned by
ActivateInstanceDebugCallbacks is an externally supplied chain of structures
(vk_typemap_helper.h, not part of src).  Each element is a messenger create
info, a report-callback create info, or some other extension structure
identified only by its sType. -/
inductive ChainItem where
  | utils (ci : VkDebugUtilsMessengerCreateInfoEXT)
  | report (ci : VkDebugReportCallbackCreateInfoEXT)
  | other (sType : Nat)

/-- Embedding of struct _debug_report_data (source lines 170 to 241).  The mutex
only serializes access and has no functional content, so it is dropped; the
queueLabelHasInsert and cmdBufLabelHasInsert fields are never read by the
embedded operations and are dropped as well. -/
structure debug_report_data where
  debug_callback_list : List VkLayerDbgFunctionState
  active_severities : Nat
  active_types : Nat
  debugObjectNameMap : List (Nat × String)
  debugUtilsObjectNameMap : List (Nat × String)
  debugUtilsQueueLabels : List (Nat × LoggingLabelState)
  debugUtilsCmdBufLabels : List (Nat × LoggingLabelState)
  instance_pnext_chain : List ChainItem

/-- A freshly created dispatch state: everything empty, aggregates zero. -/
def emptyDebugReportData : debug_report_data :=
  { debug_callback_list := [], active_severities := 0, active_types := 0,
    debugObjectNameMap := [], debugUtilsObjectNameMap := [],
    debugUtilsQueueLabels := [], debugUtilsCmdBufLabels := [],
    instance_pnext_chain := [] }

/-! ## ObjectNameRegistry (source lines 185 to 239) -/

/-- Embedding of DebugReportSetUtilsObjectName (source lines 185 to 192): when
the pObjectName pointer is non-null the name is stored (including the empty
string), otherwise the entry is erased. -/
def DebugReportSetUtilsObjectName (d : debug_report_data)
    (pNameInfo : VkDebugUtilsObjectNameInfoEXT) : debug_report_data :=
  match pNameInfo.pObjectName with
  | some n =>
    { d with debugUtilsObjectNameMap := assocUpsert d.debugUtilsObjectNameMap pNameInfo.objectHandle n }
  | none =>
    { d with debugUtilsObjectNameMap := assocErase d.debugUtilsObjectNameMap pNameInfo.objectHandle }

/-- Embedding of DebugReportSetMarkerObjectName (source lines 194 to 201). -/
def DebugReportSetMarkerObjectName (d : debug_report_data)
    (pNameInfo : VkDebugMarkerObjectNameInfoEXT) : debug_report_data :=
  match pNameInfo.pObjectName with
  | some n =>
    { d with debugObjectNameMap := assocUpsert d.debugObjectNameMap pNameInfo.object n }
  | none =>
    { d with debugObjectNameMap := assocErase d.debugObjectNameMap pNameInfo.object }

/-- Embedding of DebugReportGetUtilsObjectName (source lines 203 to 210):
returns the stored name or the empty string. -/
def DebugReportGetUtilsObjectName (d : debug_report_data) (object : Nat) : String :=
  match assocFind d.debugUtilsObjectNameMap object with
  | some s => s
  | none => ""

/-- Embedding of DebugReportGetMarkerObjectName (source lines 212 to 219). -/
def DebugReportGetMarkerObjectName (d : debug_report_data) (object : Nat) : String :=
  match assocFind d.debugObjectNameMap object with
  | some s => s
  | none => ""

/-- The name-resolution step of FormatHandle (source lines 221 to 225): the
modern (utils) name when non-empty, else the legacy (marker) name, else the
empty string. -/
def FormatHandleName (d : debug_report_data) (handle : Nat) : String :=
  let handle_name := DebugReportGetUtilsObjectName d handle
  if handle_name = "" then DebugReportGetMarkerObjectName d handle else handle_name

/-- Hexadecimal rendering of a Nat, as produced by std hex output. -/
def natToHex (n : Nat) : String := String.mk (Nat.toDigits 16 n)

/-- Embedding of FormatHandle (source lines 221 to 230). -/
def FormatHandle (d : debug_report_data) (handle_type_name : String) (handle : Nat) : String :=
  handle_type_name ++ " 0x" ++ natToHex handle ++ "[" ++ FormatHandleName d handle ++ "]"

/-! ## LabelStack operations (source lines 755 to 858) -/

/-- Embedding of GetLoggingLabelState (source lines 755 to 771) specialized to
lookup without insertion: just the map find. -/
def GetLoggingLabelStateNoInsert (m : List (Nat × LoggingLabelState)) (key : Nat) :
    Option LoggingLabelState :=
  assocFind m key

/-- Embedding of GetLoggingLabelState with insert set to true: the existing
state, or a fresh empty state that is added to the map. -/
def GetLoggingLabelStateInsert (m : List (Nat × LoggingLabelState)) (key : Nat) :
    LoggingLabelState × List (Nat × LoggingLabelState) :=
  match assocFind m key with
  | some s => (s, m)
  | none => (emptyLoggingLabelState, assocUpsert m key emptyLoggingLabelState)

/-- Embedding of BeginQueueDebugUtilsLabel (source lines 773 to 784): a no-op
unless both the label-info pointer and its pLabelName are non-null; otherwise the
stack for the queue is created on demand, the label is pushed, and the insert
slot is reset. -/
def BeginQueueDebugUtilsLabel (d : debug_report_data) (queue : Nat)
    (label_info : Option VkDebugUtilsLabelEXTInfo) : debug_report_data :=
  match label_info with
  | some info =>
    match info.pLabelName with
    | some _ =>
      let r := GetLoggingLabelStateInsert d.debugUtilsQueueLabels queue
      let label_state :=
        { labels := r.1.labels ++ [LoggingLabel.ofInfo label_info],
          insert_label := emptyLoggingLabel }
      { d with debugUtilsQueueLabels := assocUpsert r.2 queue label_state }
    | none => d
  | none => d

/-- Embedding of EndQueueDebugUtilsLabel (source lines 786 to 798): a no-op when
no stack exists for the queue; otherwise the top label is popped when the stack
is non-empty and the insert slot is always reset. -/
def EndQueueDebugUtilsLabel (d : debug_report_data) (queue : Nat) : debug_report_data :=
  match GetLoggingLabelStateNoInsert d.debugUtilsQueueLabels queue with
  | some s =>
    let label_state :=
      { labels := if s.labels.isEmpty then s.labels else s.labels.dropLast,
        insert_label := emptyLoggingLabel }
    { d with debugUtilsQueueLabels := assocUpsert d.debugUtilsQueueLabels queue label_state }
  | none => d

/-- Embedding of InsertQueueDebugUtilsLabel (source lines 800 to 807): creates
the stack on demand and sets the insert slot unconditionally from the label-info
pointer (a null pointer or null name yields the empty label). -/
def InsertQueueDebugUtilsLabel (d : debug_report_data) (queue : Nat)
    (label_info : Option VkDebugUtilsLabelEXTInfo) : debug_report_data :=
  let r := GetLoggingLabelStateInsert d.debugUtilsQueueLabels queue
  let label_state := { labels := r.1.labels, insert_label := LoggingLabel.ofInfo label_info }
  { d with debugUtilsQueueLabels := assocUpsert r.2 queue label_state }

/-- Embedding of BeginCmdDebugUtilsLabel (source lines 809 to 820): same shape
as the queue variant, over the command-buffer label map. -/
def BeginCmdDebugUtilsLabel (d : debug_report_data) (command_buffer : Nat)
    (label_info : Option VkDebugUtilsLabelEXTInfo) : debug_report_data :=
  match label_info with
  | some info =>
    match info.pLabelName with
    | some _ =>
      let r := GetLoggingLabelStateInsert d.debugUtilsCmdBufLabels command_buffer
      let label_state :=
        { labels := r.1.labels ++ [LoggingLabel.ofInfo label_info],
          insert_label := emptyLoggingLabel }
      { d with debugUtilsCmdBufLabels := assocUpsert r.2 command_buffer label_state }
    | none => d
  | none => d

/-- Embedding of EndCmdDebugUtilsLabel (source lines 822 to 834). -/
def EndCmdDebugUtilsLabel (d : debug_report_data) (command_buffer : Nat) : debug_report_data :=
  match GetLoggingLabelStateNoInsert d.debugUtilsCmdBufLabels command_buffer with
  | some s =>
    let label_state :=
      { labels := if s.labels.isEmpty then s.labels else s.labels.dropLast,
        insert_label := emptyLoggingLabel }
    { d with debugUtilsCmdBufLabels := assocUpsert d.debugUtilsCmdBufLabels command_buffer label_state }
  | none => d

/-- Embedding of InsertCmdDebugUtilsLabel (source lines 836 to 844). -/
def InsertCmdDebugUtilsLabel (d : debug_report_data) (command_buffer : Nat)
    (label_info : Option VkDebugUtilsLabelEXTInfo) : debug_report_data :=
  let r := GetLoggingLabelStateInsert d.debugUtilsCmdBufLabels command_buffer
  let label_state := { labels := r.1.labels, insert_label := LoggingLabel.ofInfo label_info }
  { d with debugUtilsCmdBufLabels := assocUpsert r.2 command_buffer label_state }

/-- Embedding of ResetCmdDebugUtilsLabel (source lines 847 to 854). -/
def ResetCmdDebugUtilsLabel (d : debug_report_data) (command_buffer : Nat) : debug_report_data :=
  match GetLoggingLabelStateNoInsert d.debugUtilsCmdBufLabels command_buffer with
  | some _ =>
    { d with debugUtilsCmdBufLabels :=
        assocUpsert d.debugUtilsCmdBufLabels command_buffer emptyLoggingLabelState }
  | none => d

/-- Embedding of EraseCmdDebugUtilsLabel (source lines 856 to 858). -/
def EraseCmdDebugUtilsLabel (d : debug_report_data) (command_buffer : Nat) : debug_report_data :=
  { d with debugUtilsCmdBufLabels := assocErase d.debugUtilsCmdBufLabels command_buffer }

/-- The label export performed by debug_log_msg for a queue object (source lines
358 to 363): the Export of the stored stack, or the empty list when no stack
exists for the key. -/
def exportQueueLabels (d : debug_report_data) (queue : Nat) : List VkDebugUtilsLabelEXT :=
  match assocFind d.debugUtilsQueueLabels queue with
  | some s => s.Export
  | none => []

/-- The label export performed by debug_log_msg for a command-buffer object
(source lines 365 to 371). -/
def exportCmdBufLabels (d : debug_report_data) (command_buffer : Nat) : List VkDebugUtilsLabelEXT :=
  match assocFind d.debugUtilsCmdBufLabels command_buffer with
  | some s => s.Export
  | none => []

/-! ## Claims C2 and C8: label-stack behaviour -/

/-- The scenario of claim C2: begin(k, ia), begin(k, ib), insert(k, ic) on a
queue key. -/
def beginBeginInsertQueue (d : debug_report_data) (k : Nat)
    (ia ib ic : VkDebugUtilsLabelEXTInfo) : debug_report_data :=
  InsertQueueDebugUtilsLabel
    (BeginQueueDebugUtilsLabel (BeginQueueDebugUtilsLabel d k (some ia)) k (some ib))
    k (some ic)

/-- Counterexample to C2 as stated: after begin(1, A), begin(1, B), insert(1, C)
on a fresh state, export yields the labels B, A, C in that order, with the
insert-slot label last, not the claimed C, B, A with the insert-slot label
first. -/
theorem C2_counterexample :
    exportQueueLabels
        (beginBeginInsertQueue emptyDebugReportData 1
          { pLabelName := some "A", color := [0, 0, 0, 0] }
          { pLabelName := some "B", color := [0, 0, 0, 0] }
          { pLabelName := some "C", color := [0, 0, 0, 0] }) 1 =
      [{ pLabelName := "B", color := [0, 0, 0, 0] },
       { pLabelName := "A", color := [0, 0, 0, 0] },
       { pLabelName := "C", color := [0, 0, 0, 0] }] ∧
    exportQueueLabels
        (beginBeginInsertQueue emptyDebugReportData 1
          { pLabelName := some "A", color := [0, 0, 0, 0] }
          { pLabelName := some "B", color := [0, 0, 0, 0] }
          { pLabelName := some "C", color := [0, 0, 0, 0] }) 1 ≠
      [{ pLabelName := "C", color := [0, 0, 0, 0] },
       { pLabelName := "B", color := [0, 0, 0, 0] },
       { pLabelName := "A", color := [0, 0, 0, 0] }] := by
  constructor <;> decide

/-- C2 as amended: for a key with no stack, export yields the empty sequence;
exporting yields the pushed labels most-recent-first followed by the insert-slot
label (when non-empty) last; concretely, after begin(k, A), begin(k, B),
insert(k, C) export yields B, A, C, and after a subsequent end(k) export yields
A alone (top of stack popped, insert slot cleared). -/
theorem C2_amended (d : debug_report_data) (k : Nat) (a b cn : String)
    (ca cb2 cc : List Nat)
    (hk : assocFind d.debugUtilsQueueLabels k = none)
    (hcn : cn ≠ "") :
    exportQueueLabels d k = [] ∧
    exportQueueLabels
        (beginBeginInsertQueue d k { pLabelName := some a, color := ca }
          { pLabelName := some b, color := cb2 } { pLabelName := some cn, color := cc }) k =
      [{ pLabelName := b, color := cb2 }, { pLabelName := a, color := ca },
       { pLabelName := cn, color := cc }] ∧
    exportQueueLabels
        (EndQueueDebugUtilsLabel
          (beginBeginInsertQueue d k { pLabelName := some a, color := ca }
            { pLabelName := some b, color := cb2 } { pLabelName := some cn, color := cc }) k) k =
      [{ pLabelName := a, color := ca }] := by
  refine ⟨?_, ?_, ?_⟩
  · simp [exportQueueLabels, hk]
  · simp [beginBeginInsertQueue, BeginQueueDebugUtilsLabel, InsertQueueDebugUtilsLabel,
      GetLoggingLabelStateInsert, hk, assocFind_upsert_self, exportQueueLabels,
      LoggingLabel.ofInfo, LoggingLabelState.Export, LoggingLabel.Empty, hcn,
      LoggingLabel.Export, emptyLoggingLabel, emptyLoggingLabelState]
  · simp [beginBeginInsertQueue, BeginQueueDebugUtilsLabel, InsertQueueDebugUtilsLabel,
      EndQueueDebugUtilsLabel, GetLoggingLabelStateNoInsert, GetLoggingLabelStateInsert,
      hk, assocFind_upsert_self, exportQueueLabels, LoggingLabel.ofInfo,
      LoggingLabelState.Export, LoggingLabel.Empty, LoggingLabel.Export,
      emptyLoggingLabel, emptyLoggingLabelState, List.dropLast]

/-- Witness for C2_amended at a concrete input. -/
theorem C2_amended_witness :
    exportQueueLabels emptyDebugReportData 1 = [] ∧
    exportQueueLabels
        (beginBeginInsertQueue emptyDebugReportData 1
          { pLabelName := some "A", color := [0, 0, 0, 0] }
          { pLabelName := some "B", color := [0, 0, 0, 0] }
          { pLabelName := some "C", color := [0, 0, 0, 0] }) 1 =
      [{ pLabelName := "B", color := [0, 0, 0, 0] },
       { pLabelName := "A", color := [0, 0, 0, 0] },
       { pLabelName := "C", color := [0, 0, 0, 0] }] ∧
    exportQueueLabels
        (EndQueueDebugUtilsLabel
          (beginBeginInsertQueue emptyDebugReportData 1
            { pLabelName := some "A", color := [0, 0, 0, 0] }
            { pLabelName := some "B", color := [0, 0, 0, 0] }
            { pLabelName := some "C", color := [0, 0, 0, 0] }) 1) 1 =
      [{ pLabelName := "A", color := [0, 0, 0, 0] }] :=
  C2_amended emptyDebugReportData 1 "A" "B" "C" [0, 0, 0, 0] [0, 0, 0, 0] [0, 0, 0, 0]
    rfl (by decide)

/-- Counterexample to C8 as stated: begin with a label whose name is the empty
string (a non-null name pointer) is not a no-op; it creates the stack and pushes
the empty-named label. -/
theorem C8_counterexample :
    (BeginQueueDebugUtilsLabel emptyDebugReportData 1
        (some { pLabelName := some "", color := [0, 0, 0, 0] })).debugUtilsQueueLabels =
      [(1, { labels := [{ name := "", color := [0, 0, 0, 0] }],
             insert_label := emptyLoggingLabel })] ∧
    (BeginQueueDebugUtilsLabel emptyDebugReportData 1
        (some { pLabelName := some "", color := [0, 0, 0, 0] })).debugUtilsQueueLabels ≠
      emptyDebugReportData.debugUtilsQueueLabels := by
  constructor <;> decide

/-- C8 as amended: begin(key, label) is a no-op exactly when the label pointer is
null or the name pointer of the label is null; otherwise (an empty name string
included) it lazily creates the stack of the key, pushes the label, and clears that
insert slot of that stack.  Stated for both the queue and the command-buffer variant. -/
theorem C8_amended (d : debug_report_data) (k : Nat) (c : List Nat) (n : String) :
    BeginQueueDebugUtilsLabel d k none = d ∧
    BeginCmdDebugUtilsLabel d k none = d ∧
    BeginQueueDebugUtilsLabel d k (some { pLabelName := none, color := c }) = d ∧
    BeginCmdDebugUtilsLabel d k (some { pLabelName := none, color := c }) = d ∧
    assocFind (BeginQueueDebugUtilsLabel d k
        (some { pLabelName := some n, color := c })).debugUtilsQueueLabels k =
      some { labels := ((assocFind d.debugUtilsQueueLabels k).getD
               emptyLoggingLabelState).labels ++ [{ name := n, color := c }],
             insert_label := emptyLoggingLabel } ∧
    assocFind (BeginCmdDebugUtilsLabel d k
        (some { pLabelName := some n, color := c })).debugUtilsCmdBufLabels k =
      some { labels := ((assocFind d.debugUtilsCmdBufLabels k).getD
               emptyLoggingLabelState).labels ++ [{ name := n, color := c }],
             insert_label := emptyLoggingLabel } := by
  refine ⟨rfl, rfl, rfl, rfl, ?_, ?_⟩
  · cases hfind : assocFind d.debugUtilsQueueLabels k with
    | none =>
      simp [BeginQueueDebugUtilsLabel, GetLoggingLabelStateInsert, hfind,
        assocFind_upsert_self, LoggingLabel.ofInfo, emptyLoggingLabelState]
    | some s =>
      simp [BeginQueueDebugUtilsLabel, GetLoggingLabelStateInsert, hfind,
        assocFind_upsert_self, LoggingLabel.ofInfo]
  · cases hfind : assocFind d.debugUtilsCmdBufLabels k with
    | none =>
      simp [BeginCmdDebugUtilsLabel, GetLoggingLabelStateInsert, hfind,
        assocFind_upsert_self, LoggingLabel.ofInfo, emptyLoggingLabelState]
    | some s =>
      simp [BeginCmdDebugUtilsLabel, GetLoggingLabelStateInsert, hfind,
        assocFind_upsert_self, LoggingLabel.ofInfo]

/-! ## Claim C7: object naming and name resolution -/

/-- Counterexample to C7 as stated: setting an empty (but present) name string
does not erase the entry; the empty string is stored in the map. -/
theorem C7_counterexample :
    (DebugReportSetUtilsObjectName emptyDebugReportData
        { objectType := 0, objectHandle := 5, pObjectName := some "" }).debugUtilsObjectNameMap =
      [(5, "")] ∧
    (DebugReportSetUtilsObjectName emptyDebugReportData
        { objectType := 0, objectHandle := 5, pObjectName := some "" }).debugUtilsObjectNameMap ≠
      [] := by
  constructor <;> decide

/-- C7 as amended: setName upserts whenever the name pointer is present (the
empty string included) and erases only when the pointer is absent, with no error
when erasing an absent entry; name resolution returns the modern name when it is
non-empty, falling back to the legacy name (a stored empty modern name behaves
like an absent one), so the stated scenario holds: after setName(legacy, H, Foo)
then setName(modern, H, Bar), resolution yields Bar, and after a further
setName(modern, H, empty string) it yields Foo. -/
theorem C7_amended (d : debug_report_data) (H : Nat) (foo bar : String) (t : Nat)
    (hfoo : foo ≠ "") (hbar : bar ≠ "") :
    (assocFind d.debugUtilsObjectNameMap H = none →
      (DebugReportSetUtilsObjectName d
          { objectType := t, objectHandle := H, pObjectName := none }).debugUtilsObjectNameMap =
        d.debugUtilsObjectNameMap) ∧
    FormatHandleName
        (DebugReportSetUtilsObjectName
          (DebugReportSetMarkerObjectName d { object := H, pObjectName := some foo })
          { objectType := t, objectHandle := H, pObjectName := some bar }) H = bar ∧
    FormatHandleName
        (DebugReportSetUtilsObjectName
          (DebugReportSetUtilsObjectName
            (DebugReportSetMarkerObjectName d { object := H, pObjectName := some foo })
            { objectType := t, objectHandle := H, pObjectName := some bar })
          { objectType := t, objectHandle := H, pObjectName := some "" }) H = foo := by
  refine ⟨?_, ?_, ?_⟩
  · intro h
    simp [DebugReportSetUtilsObjectName, assocErase_absent _ _ h]
  · simp [DebugReportSetUtilsObjectName, DebugReportSetMarkerObjectName,
      FormatHandleName, DebugReportGetUtilsObjectName, DebugReportGetMarkerObjectName,
      assocFind_upsert_self, hbar]
  · simp [DebugReportSetUtilsObjectName, DebugReportSetMarkerObjectName,
      FormatHandleName, DebugReportGetUtilsObjectName, DebugReportGetMarkerObjectName,
      assocFind_upsert_self, hfoo]

/-- Witness for C7_amended at a concrete input. -/
theorem C7_amended_witness :
    (assocFind emptyDebugReportData.debugUtilsObjectNameMap 7 = none →
      (DebugReportSetUtilsObjectName emptyDebugReportData
          { objectType := 0, objectHandle := 7, pObjectName := none }).debugUtilsObjectNameMap =
        emptyDebugReportData.debugUtilsObjectNameMap) ∧
    FormatHandleName
        (DebugReportSetUtilsObjectName
          (DebugReportSetMarkerObjectName emptyDebugReportData
            { object := 7, pObjectName := some "Foo" })
          { objectType := 0, objectHandle := 7, pObjectName := some "Bar" }) 7 = "Bar" ∧
    FormatHandleName
        (DebugReportSetUtilsObjectName
          (DebugReportSetUtilsObjectName
            (DebugReportSetMarkerObjectName emptyDebugReportData
              { object := 7, pObjectName := some "Foo" })
            { objectType := 0, objectHandle := 7, pObjectName := some "Bar" })
          { objectType := 0, objectHandle := 7, pObjectName := some "" }) 7 = "Foo" :=
  C7_amended emptyDebugReportData 7 "Foo" "Bar" 0 (by decide) (by decide)

/-! ## CallbackRegistry (source lines 280 to 315 and 457 to 514) -/

/-- Embedding of SetDebugUtilsSeverityFlags (source lines 280 to 294).  Note the
source accumulates with bitwise or into the existing aggregate fields without
zeroing them first. -/
def SetDebugUtilsSeverityFlags (callbacks : List VkLayerDbgFunctionState)
    (d : debug_report_data) : debug_report_data :=
  callbacks.foldl
    (fun acc item =>
      if item.IsUtils then
        { acc with active_severities := acc.active_severities ||| item.debug_utils_msg_flags,
                   active_types := acc.active_types ||| item.debug_utils_msg_type }
      else
        let st := DebugReportFlagsToAnnotFlags item.debug_report_msg_flags
        { acc with active_severities := acc.active_severities ||| st.1,
                   active_types := acc.active_types ||| st.2 })
    d

/-- The erase-first-match loop of RemoveDebugUtilsCallback (source lines 298 to
308): the first entry whose handle, interpreted according to the scheme of the entry,
equals the argument is removed; nothing happens when no entry matches. -/
def removeMatchingCallback (callbacks : List VkLayerDbgFunctionState) (callback : Nat) :
    List VkLayerDbgFunctionState :=
  match callbacks with
  | [] => []
  | item :: rest =>
    if (if item.IsUtils then item.debug_utils_callback_object = callback
        else item.debug_report_callback_object = callback) then
      rest
    else
      item :: removeMatchingCallback rest callback

/-- Embedding of RemoveDebugUtilsCallback (source lines 296 to 310): erase the
matching entry, then run the aggregate recomputation over the remaining list. -/
def RemoveDebugUtilsCallback (d : debug_report_data) (callback : Nat) : debug_report_data :=
  let d2 := { d with debug_callback_list := removeMatchingCallback d.debug_callback_list callback }
  SetDebugUtilsSeverityFlags d2.debug_callback_list d2

/-- Embedding of RemoveAllMessageCallbacks (source lines 313 to 315): the list is
cleared and nothing else happens; in particular the aggregate masks are not
recomputed. -/
def RemoveAllMessageCallbacks (d : debug_report_data) : debug_report_data :=
  { d with debug_callback_list := [] }

/-- Embedding of layer_destroy_callback (source lines 457 to 461). -/
def layer_destroy_callback (d : debug_report_data) (callback : Nat) : debug_report_data :=
  RemoveDebugUtilsCallback d callback

/-- The create-info argument of the layer_create_callback template: either
create structure of either scheme. -/
inductive CreateInfo where
  | utils (ci : VkDebugUtilsMessengerCreateInfoEXT)
  | report (ci : VkDebugReportCallbackCreateInfoEXT)

/-- The pUserData field common to both create-info structures. -/
def CreateInfo.userData : CreateInfo → Nat
  | .utils ci => ci.pUserData
  | .report ci => ci.pUserData

/-- Embedding of layer_create_callback (source lines 463 to 498).  A default
entry is appended, its fields are filled according to the scheme selected by
callback_status, and the aggregate masks are recomputed over the new list.  When
the caller passes a null (zero) handle the source substitutes the address of the
new entry as a unique synthetic handle; the address is modelled by the position
of the entry (list length plus one), which is likewise non-zero and unique
within a registry only ever grown by this function.  At every call site the
create-info variant agrees with the scheme bit of callback_status; the
mismatched branches fill the scheme fields of the entry with zeros and are
unreachable from the call sites embedded in this file.  Returns the new state
and the handle written back through the callback out-parameter. -/
def layer_create_callback (callback_status : Nat) (d : debug_report_data)
    (create_info : CreateInfo) (callback : Nat) : debug_report_data × Nat :=
  let base : VkLayerDbgFunctionState :=
    { callback_status := callback_status,
      debug_report_callback_object := 0,
      debug_report_callback_function_ptr := fun _ => false,
      debug_report_msg_flags := 0,
      debug_utils_callback_object := 0,
      debug_utils_msg_flags := 0,
      debug_utils_msg_type := 0,
      debug_utils_callback_function_ptr := fun _ _ _ _ => false,
      pUserData := create_info.userData }
  match create_info with
  | .utils ci =>
    if base.IsUtils then
      let handle := if callback = 0 then d.debug_callback_list.length + 1 else callback
      let entry :=
        { base with debug_utils_callback_object := handle,
                    debug_utils_callback_function_ptr := ci.pfnUserCallback,
                    debug_utils_msg_flags := ci.messageSeverity,
                    debug_utils_msg_type := ci.messageType }
      let d2 := { d with debug_callback_list := d.debug_callback_list ++ [entry] }
      (SetDebugUtilsSeverityFlags d2.debug_callback_list d2, handle)
    else
      let d2 := { d with debug_callback_list := d.debug_callback_list ++ [base] }
      (SetDebugUtilsSeverityFlags d2.debug_callback_list d2, callback)
  | .report ci =>
    if base.IsUtils then
      let d2 := { d with debug_callback_list := d.debug_callback_list ++ [base] }
      (SetDebugUtilsSeverityFlags d2.debug_callback_list d2, callback)
    else
      let handle := if callback = 0 then d.debug_callback_list.length + 1 else callback
      let entry :=
        { base with debug_report_callback_object := handle,
                    debug_report_callback_function_ptr := ci.pfnCallback,
                    debug_report_msg_flags := ci.flags }
      let d2 := { d with debug_callback_list := d.debug_callback_list ++ [entry] }
      (SetDebugUtilsSeverityFlags d2.debug_callback_list d2, handle)

/-- Embedding of layer_create_messenger_callback (source lines 500 to 507).
Returns the new state, the messenger handle written back, and the VkResult. -/
def layer_create_messenger_callback (d : debug_report_data) (default_callback : Bool)
    (create_info : VkDebugUtilsMessengerCreateInfoEXT) (messenger : Nat) :
    debug_report_data × Nat × Nat :=
  let r := layer_create_callback
    (DEBUG_CALLBACK_UTILS ||| (if default_callback then DEBUG_CALLBACK_DEFAULT else 0))
    d (CreateInfo.utils create_info) messenger
  (r.1, r.2, VK_SUCCESS)

/-- Embedding of layer_create_report_callback (source lines 509 to 514). -/
def layer_create_report_callback (d : debug_report_data) (default_callback : Bool)
    (create_info : VkDebugReportCallbackCreateInfoEXT) (callback : Nat) :
    debug_report_data × Nat × Nat :=
  let r := layer_create_callback
    (if default_callback then DEBUG_CALLBACK_DEFAULT else 0)
    d (CreateInfo.report create_info) callback
  (r.1, r.2, VK_SUCCESS)

/-- The aggregate recomputation never changes the callback list itself. -/
theorem SetDebugUtilsSeverityFlags_list (callbacks : List VkLayerDbgFunctionState)
    (d : debug_report_data) :
    (SetDebugUtilsSeverityFlags callbacks d).debug_callback_list = d.debug_callback_list := by
  induction callbacks generalizing d with
  | nil => rfl
  | cons item rest ih =>
    unfold SetDebugUtilsSeverityFlags
    by_cases h : item.IsUtils <;> simp only [List.foldl_cons, h] <;>
      exact ih _

/-- layer_create_callback appends exactly one entry to the callback list. -/
theorem layer_create_callback_appends (callback_status : Nat) (d : debug_report_data)
    (create_info : CreateInfo) (callback : Nat) :
    ∃ e, (layer_create_callback callback_status d create_info callback).1.debug_callback_list =
      d.debug_callback_list ++ [e] := by
  cases create_info <;> simp only [layer_create_callback] <;> split <;>
    (rw [SetDebugUtilsSeverityFlags_list]; exact ⟨_, rfl⟩)

/-! ## Claims C10 and C1: registration and aggregate maintenance -/

/-- C10: registration has no failure path: for every dispatch state and every
create-info, layer_create_messenger_callback and layer_create_report_callback
append exactly one entry to the callback list and always return VK_SUCCESS. -/
theorem C10_registration_always_succeeds (d : debug_report_data) (default_callback : Bool)
    (uci : VkDebugUtilsMessengerCreateInfoEXT) (rci : VkDebugReportCallbackCreateInfoEXT)
    (hm hr : Nat) :
    (∃ e, (layer_create_messenger_callback d default_callback uci hm).1.debug_callback_list =
      d.debug_callback_list ++ [e]) ∧
    (layer_create_messenger_callback d default_callback uci hm).2.2 = VK_SUCCESS ∧
    (∃ e, (layer_create_report_callback d default_callback rci hr).1.debug_callback_list =
      d.debug_callback_list ++ [e]) ∧
    (layer_create_report_callback d default_callback rci hr).2.2 = VK_SUCCESS := by
  refine ⟨?_, rfl, ?_, rfl⟩
  · exact layer_create_callback_appends _ d (CreateInfo.utils uci) hm
  · exact layer_create_callback_appends _ d (CreateInfo.report rci) hr

/-- A concrete modern-scheme create info used to exhibit the stale-aggregate
defect of claim C1: severity mask 0x1000 (error), type mask 0x2 (validation). -/
def c1CreateInfo : VkDebugUtilsMessengerCreateInfoEXT :=
  { messageSeverity := 0x1000, messageType := 0x2,
    pfnUserCallback := fun _ _ _ _ => false, pUserData := 0 }

/-- C1, evaluated at the failing input: registering one modern callback with
severity mask 0x1000 and type mask 0x2 and then removing all callbacks leaves
the callback list empty but the aggregate masks unchanged at 0x1000 and 0x2,
not zero as the claimed invariant requires.  RemoveAllMessageCallbacks never
recomputes the aggregates, and SetDebugUtilsSeverityFlags accumulates into the
old aggregate values without zeroing them first, so the same staleness follows
remove-by-handle as well, exhibited here by removing the sole callback (handle
42): the list is empty yet the aggregates still hold 0x1000 and 0x2. -/
theorem C1_removeAll_keeps_stale_aggregates :
    (RemoveAllMessageCallbacks
        (layer_create_messenger_callback emptyDebugReportData false c1CreateInfo 42).1).debug_callback_list = [] ∧
    (RemoveAllMessageCallbacks
        (layer_create_messenger_callback emptyDebugReportData false c1CreateInfo 42).1).active_severities = 0x1000 ∧
    (RemoveAllMessageCallbacks
        (layer_create_messenger_callback emptyDebugReportData false c1CreateInfo 42).1).active_types = 0x2 ∧
    (RemoveAllMessageCallbacks
        (layer_create_messenger_callback emptyDebugReportData false c1CreateInfo 42).1).active_severities ≠ 0 ∧
    (RemoveDebugUtilsCallback
        (layer_create_messenger_callback emptyDebugReportData false c1CreateInfo 42).1 42).debug_callback_list = [] ∧
    (RemoveDebugUtilsCallback
        (layer_create_messenger_callback emptyDebugReportData false c1CreateInfo 42).1 42).active_severities = 0x1000 ∧
    (RemoveDebugUtilsCallback
        (layer_create_messenger_callback emptyDebugReportData false c1CreateInfo 42).1 42).active_types = 0x2 := by
  refine ⟨rfl, by decide, by decide, by decide, rfl, by decide, by decide⟩

/-! ## DispatchEngine: debug_log_msg (source lines 317 to 427) -/

/-- Modelled from the spec: the object-type conversion
convertDebugReportObjectToCoreObject lives in vk_object_types.h, which is not
part of src; the spec treats the object/type model as an external collaborator
consumed as an opaque type tag.  For the two tags the dispatch routine branches
on (queue and command buffer) the legacy and core enumerations share the same
numeric values in the Vulkan headers, so the conversion is carried as the
identity on the Nat tag. -/
def convertDebugReportObjectToCoreObject (object_type : Nat) : Nat := object_type

/-- The use_default_callbacks computation of debug_log_msg (source lines 396 to
399): a conjunction over the whole list, so true exactly when every registered
callback is a default one. -/
def useDefaultCallbacks (callbacks : List VkLayerDbgFunctionState) : Bool :=
  callbacks.foldl (fun acc current_callback => acc && current_callback.IsDefault) true

/-- One observed sink invocation during a dispatch: the position of the entry in
the callback list, the payload it was handed (the message string for a legacy
report sink, the callback-data record for a modern utils sink), and the Bool
the sink returned. -/
inductive Invocation where
  | report (index : Nat) (message : String) (result : Bool)
  | utils (index : Nat) (data : VkDebugUtilsMessengerCallbackDataEXT) (result : Bool)
deriving DecidableEq

/-- The entry position an invocation refers to. -/
def Invocation.index : Invocation → Nat
  | .report i _ _ => i
  | .utils i _ _ => i

/-- The Bool the sink returned. -/
def Invocation.result : Invocation → Bool
  | .report _ _ r => r
  | .utils _ _ r => r

/-- The per-dispatch context of the callback loop of debug_log_msg: everything
the loop body reads that does not change between iterations. -/
structure DispatchCtx where
  use_default : Bool
  msg_flags : Nat
  severity : Nat
  types : Nat
  object_type : Nat
  src_object : Nat
  location : Nat
  layer_pfx : String
  text_vuid : Option String
  cbData : VkDebugUtilsMessengerCallbackDataEXT

/-- The callback loop of debug_log_msg (source lines 401 to 425), instrumented
with the list of invocations it makes.  The accumulator msg models the mutable
new_debug_report_message string: each firing legacy sink first inserts the
text_vuid (when the pointer is present) at the front of that shared string in
the literal form quote-space-bracket-space-id-space-bracket-space, so the prefix
accumulates across firing legacy sinks.  bail models the mutable bail flag.
Returns the final bail flag, the final message string, and the invocations in
order. -/
def dispatchLoop (ctx : DispatchCtx) :
    List VkLayerDbgFunctionState → Nat → Bool → String →
      Bool × String × List Invocation
  | [], _, bail, msg => (bail, msg, [])
  | current_callback :: rest, index, bail, msg =>
    if current_callback.IsDefault && !ctx.use_default then
      dispatchLoop ctx rest (index + 1) bail msg
    else if !current_callback.IsUtils &&
        (current_callback.debug_report_msg_flags &&& ctx.msg_flags != 0) then
      let msg2 := match ctx.text_vuid with
        | some v => " [ " ++ v ++ " ] " ++ msg
        | none => msg
      let r := current_callback.debug_report_callback_function_ptr
        { msg_flags := ctx.msg_flags, object_type := ctx.object_type,
          src_object := ctx.src_object, location := ctx.location, msg_code := 0,
          layer_pfx := ctx.layer_pfx, message := msg2,
          user_data := current_callback.pUserData }
      let out := dispatchLoop ctx rest (index + 1) (bail || r) msg2
      (out.1, out.2.1, Invocation.report index msg2 r :: out.2.2)
    else if current_callback.IsUtils &&
        (current_callback.debug_utils_msg_flags &&& ctx.severity != 0) &&
        (current_callback.debug_utils_msg_type &&& ctx.types != 0) then
      let r := current_callback.debug_utils_callback_function_ptr
        ctx.severity ctx.types ctx.cbData current_callback.pUserData
      let out := dispatchLoop ctx rest (index + 1) (bail || r) msg
      (out.1, out.2.1, Invocation.utils index ctx.cbData r :: out.2.2)
    else
      dispatchLoop ctx rest (index + 1) bail msg

/-- The message composition of debug_log_msg (source lines 334 and 351 to 391):
the object prefix, a separator, then the caller message. -/
def composeBaseMessage (d : debug_report_data) (object_type src_object : Nat)
    (message : String) : String :=
  (if src_object ≠ 0 then
    let object_label :=
      let l := DebugReportGetUtilsObjectName d src_object
      if l = "" then DebugReportGetMarkerObjectName d src_object else l
    "Object: 0x" ++ natToHex src_object ++
      (if object_label ≠ "" then " (Name = " ++ object_label ++ " : Type = "
       else " (Type = ") ++
      Nat.repr object_type ++ ")"
   else
    "Object: VK_NULL_HANDLE (Type = " ++ Nat.repr object_type ++ ")")
  ++ " | " ++ message

/-- The VkDebugUtilsMessengerCallbackDataEXT record assembled by debug_log_msg
(source lines 324 to 347, 354 to 384): the identifier pointer, the deprecated id
number fixed at zero, the original caller message (not the composed one), the
exported queue or command-buffer labels when the object is of the matching type
and non-null, and the single named-object record with the resolved name when one
is known. -/
def dispatchCallbackData (d : debug_report_data) (object_type src_object : Nat)
    (message : String) (text_vuid : Option String) :
    VkDebugUtilsMessengerCallbackDataEXT :=
  let core_type := convertDebugReportObjectToCoreObject object_type
  let object_label : String :=
    if src_object ≠ 0 then
      let l := DebugReportGetUtilsObjectName d src_object
      if l = "" then DebugReportGetMarkerObjectName d src_object else l
    else ""
  { pMessageIdName := text_vuid,
    messageIdNumber := 0,
    pMessage := message,
    queueLabels :=
      if src_object ≠ 0 ∧ core_type = VK_OBJECT_TYPE_QUEUE then
        exportQueueLabels d src_object
      else [],
    cmdBufLabels :=
      if src_object ≠ 0 ∧ core_type = VK_OBJECT_TYPE_COMMAND_BUFFER then
        exportCmdBufLabels d src_object
      else [],
    objects := [{ objectType := core_type, objectHandle := src_object,
                  pObjectName := if object_label ≠ "" then some object_label else none }] }

/-- Embedding of debug_log_msg (source lines 317 to 427), instrumented with the
invocation list: translate the legacy flags, assemble the callback data and the
composed legacy message, compute the default-eligibility flag, then run the
callback loop from index 0 with bail false.  dispatchCtxOf gathers the
loop-invariant part; debug_log_msg_full returns the final bail flag and the
invocations made. -/
def dispatchCtxOf (d : debug_report_data) (msg_flags object_type src_object location : Nat)
    (layer_pfx : String) (message : String) (text_vuid : Option String) : DispatchCtx :=
  let st := DebugReportFlagsToAnnotFlags msg_flags
  { use_default := useDefaultCallbacks d.debug_callback_list,
    msg_flags := msg_flags,
    severity := st.1,
    types := st.2,
    object_type := object_type,
    src_object := src_object,
    location := location,
    layer_pfx := layer_pfx,
    text_vuid := text_vuid,
    cbData := dispatchCallbackData d object_type src_object message text_vuid }

def debug_log_msg_full (d : debug_report_data) (msg_flags object_type src_object location : Nat)
    (layer_pfx : String) (message : String) (text_vuid : Option String) :
    Bool × List Invocation :=
  let out := dispatchLoop
    (dispatchCtxOf d msg_flags object_type src_object location layer_pfx message text_vuid)
    d.debug_callback_list 0 false
    (composeBaseMessage d object_type src_object message)
  (out.1, out.2.2)

/-- Embedding of debug_log_msg proper: just the bail flag. -/
def debug_log_msg (d : debug_report_data) (msg_flags object_type src_object location : Nat)
    (layer_pfx : String) (message : String) (text_vuid : Option String) : Bool :=
  (debug_log_msg_full d msg_flags object_type src_object location layer_pfx message text_vuid).1

/-- Whether an entry of the callback list fires during a dispatch: it is not a
suppressed default, and its scheme-specific filter matches; written from the
loop conditions of source lines 401 to 419. -/
def callbackFires (ctx : DispatchCtx) (current_callback : VkLayerDbgFunctionState) : Bool :=
  !(current_callback.IsDefault && !ctx.use_default) &&
    ((!current_callback.IsUtils &&
       (current_callback.debug_report_msg_flags &&& ctx.msg_flags != 0)) ||
     (current_callback.IsUtils &&
       (current_callback.debug_utils_msg_flags &&& ctx.severity != 0) &&
       (current_callback.debug_utils_msg_type &&& ctx.types != 0)))

/-- The positions of the entries that fire, in list order, starting from a given
index.  This depends only on the entries and the dispatch context, never on the
values the sinks return. -/
def firingIndices (ctx : DispatchCtx) :
    List VkLayerDbgFunctionState → Nat → List Nat
  | [], _ => []
  | current_callback :: rest, index =>
    if callbackFires ctx current_callback then
      index :: firingIndices ctx rest (index + 1)
    else
      firingIndices ctx rest (index + 1)

/-! ## Dispatch loop lemmas -/

/-- The invocations a dispatch makes are exactly the firing entries, in list
order; the sink return values never influence which entries are invoked. -/
theorem dispatchLoop_map_index (ctx : DispatchCtx) (cbs : List VkLayerDbgFunctionState) :
    ∀ (index : Nat) (bail : Bool) (msg : String),
      ((dispatchLoop ctx cbs index bail msg).2.2).map Invocation.index =
        firingIndices ctx cbs index := by
  induction cbs with
  | nil => intro i b m; rfl
  | cons cb rest ih =>
    intro i b m
    simp only [dispatchLoop, firingIndices, callbackFires]
    by_cases h1 : (cb.IsDefault && !ctx.use_default) = true <;>
    by_cases h2 : (!cb.IsUtils && (cb.debug_report_msg_flags &&& ctx.msg_flags != 0)) = true <;>
    by_cases h3 : (cb.IsUtils && (cb.debug_utils_msg_flags &&& ctx.severity != 0) &&
        (cb.debug_utils_msg_type &&& ctx.types != 0)) = true <;>
    simp [h1, h2, h3, ih, Invocation.index]

/-- The final bail flag is the initial one or-ed with the results of all the
invocations made. -/
theorem dispatchLoop_bail (ctx : DispatchCtx) (cbs : List VkLayerDbgFunctionState) :
    ∀ (index : Nat) (bail : Bool) (msg : String),
      (dispatchLoop ctx cbs index bail msg).1 =
        (bail || ((dispatchLoop ctx cbs index bail msg).2.2).any Invocation.result) := by
  induction cbs with
  | nil => intro i b m; simp [dispatchLoop]
  | cons cb rest ih =>
    intro i b m
    simp only [dispatchLoop]
    by_cases h1 : (cb.IsDefault && !ctx.use_default) = true <;>
    by_cases h2 : (!cb.IsUtils && (cb.debug_report_msg_flags &&& ctx.msg_flags != 0)) = true <;>
    by_cases h3 : (cb.IsUtils && (cb.debug_utils_msg_flags &&& ctx.severity != 0) &&
        (cb.debug_utils_msg_type &&& ctx.types != 0)) = true <;>
    simp [h1, h2, h3, ih, Invocation.result, Bool.or_assoc]

/-- Every invocation points at an entry of the list that fires. -/
theorem dispatchLoop_inv_entry (ctx : DispatchCtx) (cbs : List VkLayerDbgFunctionState) :
    ∀ (index : Nat) (bail : Bool) (msg : String) (inv : Invocation),
      inv ∈ (dispatchLoop ctx cbs index bail msg).2.2 →
        ∃ k cb, cbs.get? k = some cb ∧ inv.index = index + k ∧ callbackFires ctx cb = true := by
  induction cbs with
  | nil => intro i b m inv h; simp [dispatchLoop] at h
  | cons cb rest ih =>
    intro i b m inv hmem
    simp only [dispatchLoop] at hmem
    by_cases h1 : (cb.IsDefault && !ctx.use_default) = true
    · rw [if_pos h1] at hmem
      obtain ⟨k, cb2, hget, hidx, hfire⟩ := ih (i + 1) b m inv hmem
      exact ⟨k + 1, cb2, by simpa using hget, by omega, hfire⟩
    · rw [if_neg h1] at hmem
      by_cases h2 : (!cb.IsUtils && (cb.debug_report_msg_flags &&& ctx.msg_flags != 0)) = true
      · rw [if_pos h2] at hmem
        simp only [List.mem_cons] at hmem
        rcases hmem with hhead | htail
        · refine ⟨0, cb, rfl, ?_, ?_⟩
          · subst hhead; simp [Invocation.index]
          · revert h1
            simp only [callbackFires]
            cases cb.IsDefault <;> cases ctx.use_default <;> simp [h2]
        · obtain ⟨k, cb2, hget, hidx, hfire⟩ := ih (i + 1) _ _ inv htail
          exact ⟨k + 1, cb2, by simpa using hget, by omega, hfire⟩
      · rw [if_neg h2] at hmem
        by_cases h3 : (cb.IsUtils && (cb.debug_utils_msg_flags &&& ctx.severity != 0) &&
            (cb.debug_utils_msg_type &&& ctx.types != 0)) = true
        · rw [if_pos h3] at hmem
          simp only [List.mem_cons] at hmem
          rcases hmem with hhead | htail
          · refine ⟨0, cb, rfl, ?_, ?_⟩
            · subst hhead; simp [Invocation.index]
            · revert h1
              simp only [callbackFires]
              cases cb.IsDefault <;> cases ctx.use_default <;> simp [h3]
          · obtain ⟨k, cb2, hget, hidx, hfire⟩ := ih (i + 1) _ _ inv htail
            exact ⟨k + 1, cb2, by simpa using hget, by omega, hfire⟩
        · rw [if_neg h3] at hmem
          obtain ⟨k, cb2, hget, hidx, hfire⟩ := ih (i + 1) b m inv hmem
          exact ⟨k + 1, cb2, by simpa using hget, by omega, hfire⟩

/-- Every modern-scheme invocation carries exactly the callback-data record held
in the dispatch context; the record is assembled once before the loop and never
modified. -/
theorem dispatchLoop_utils_payload (ctx : DispatchCtx) (cbs : List VkLayerDbgFunctionState) :
    ∀ (index : Nat) (bail : Bool) (msg : String) (j : Nat)
      (dt : VkDebugUtilsMessengerCallbackDataEXT) (r : Bool),
      Invocation.utils j dt r ∈ (dispatchLoop ctx cbs index bail msg).2.2 → dt = ctx.cbData := by
  induction cbs with
  | nil => intro i b m j dt r h; simp [dispatchLoop] at h
  | cons cb rest ih =>
    intro i b m j dt r hmem
    simp only [dispatchLoop] at hmem
    by_cases h1 : (cb.IsDefault && !ctx.use_default) = true
    · rw [if_pos h1] at hmem
      exact ih _ _ _ _ _ _ hmem
    · rw [if_neg h1] at hmem
      by_cases h2 : (!cb.IsUtils && (cb.debug_report_msg_flags &&& ctx.msg_flags != 0)) = true
      · rw [if_pos h2] at hmem
        simp only [List.mem_cons] at hmem
        rcases hmem with hhead | htail
        · cases hhead
        · exact ih _ _ _ _ _ _ htail
      · rw [if_neg h2] at hmem
        by_cases h3 : (cb.IsUtils && (cb.debug_utils_msg_flags &&& ctx.severity != 0) &&
            (cb.debug_utils_msg_type &&& ctx.types != 0)) = true
        · rw [if_pos h3] at hmem
          simp only [List.mem_cons] at hmem
          rcases hmem with hhead | htail
          · injection hhead with hj hdt hr
            try exact hdt.symm
          · exact ih _ _ _ _ _ _ htail
        · rw [if_neg h3] at hmem
          exact ih _ _ _ _ _ _ hmem

/-! ## Claim C3: aggregation without short-circuit -/

/-- C3: dispatch returns true exactly when at least one invoked sink returned
true; the set of invoked sinks is the firing entries in registration order,
computed by firingIndices from the entries and filters alone, independently of
any sink return value, so every eligible firing sink is invoked even after an
earlier sink has returned true; and with no registered sinks the dispatch makes
zero invocations and returns false. -/
theorem C3_dispatch_aggregation (d : debug_report_data)
    (msg_flags object_type src_object location : Nat)
    (layer_pfx message : String) (text_vuid : Option String) :
    ((debug_log_msg_full d msg_flags object_type src_object location layer_pfx message text_vuid).1 = true ↔
      ∃ inv ∈ (debug_log_msg_full d msg_flags object_type src_object location layer_pfx message text_vuid).2,
        inv.result = true) ∧
    ((debug_log_msg_full d msg_flags object_type src_object location layer_pfx message text_vuid).2.map
        Invocation.index =
      firingIndices (dispatchCtxOf d msg_flags object_type src_object location layer_pfx message text_vuid)
        d.debug_callback_list 0) ∧
    (d.debug_callback_list = [] →
      (debug_log_msg_full d msg_flags object_type src_object location layer_pfx message text_vuid).2 = [] ∧
      (debug_log_msg_full d msg_flags object_type src_object location layer_pfx message text_vuid).1 = false) := by
  refine ⟨?_, ?_, ?_⟩
  · simp only [debug_log_msg_full]
    rw [dispatchLoop_bail]
    simp [List.any_eq_true]
  · simp only [debug_log_msg_full]
    exact dispatchLoop_map_index _ _ _ _ _
  · intro h
    simp only [debug_log_msg_full, h]
    exact ⟨rfl, rfl⟩

/-- Witness for C3_dispatch_aggregation: on a state with no registered sinks the
dispatch makes zero invocations and returns false. -/
theorem C3_dispatch_aggregation_witness :
    (debug_log_msg_full emptyDebugReportData 8 0 0 0 "L" "m" none).2 = [] ∧
    (debug_log_msg_full emptyDebugReportData 8 0 0 0 "L" "m" none).1 = false :=
  (C3_dispatch_aggregation emptyDebugReportData 8 0 0 0 "L" "m" none).2.2 rfl

/-! ## Claim C4: default-sink suppression -/

/-- The scheme-specific filter of the dispatch loop without the role filter
(source lines 406 and 418): a legacy sink matches when its mask meets the event
flags, a modern sink when both its severity and its type mask meet the
translated event. -/
def schemeFilterMatches (ctx : DispatchCtx) (cb : VkLayerDbgFunctionState) : Bool :=
  (!cb.IsUtils && (cb.debug_report_msg_flags &&& ctx.msg_flags != 0)) ||
  (cb.IsUtils && (cb.debug_utils_msg_flags &&& ctx.severity != 0) &&
    (cb.debug_utils_msg_type &&& ctx.types != 0))

/-- Positions of all entries passing the scheme filter, roles ignored. -/
def schemeMatchIndices (ctx : DispatchCtx) :
    List VkLayerDbgFunctionState → Nat → List Nat
  | [], _ => []
  | cb :: rest, index =>
    if schemeFilterMatches ctx cb then index :: schemeMatchIndices ctx rest (index + 1)
    else schemeMatchIndices ctx rest (index + 1)

/-- Positions of the non-default entries passing the scheme filter. -/
def nonDefaultSchemeMatchIndices (ctx : DispatchCtx) :
    List VkLayerDbgFunctionState → Nat → List Nat
  | [], _ => []
  | cb :: rest, index =>
    if !cb.IsDefault && schemeFilterMatches ctx cb then
      index :: nonDefaultSchemeMatchIndices ctx rest (index + 1)
    else nonDefaultSchemeMatchIndices ctx rest (index + 1)

/-- The use_default_callbacks fold equals the all-default test. -/
theorem useDefaultCallbacks_eq_all (callbacks : List VkLayerDbgFunctionState) :
    useDefaultCallbacks callbacks = callbacks.all (fun cb => cb.IsDefault) := by
  have aux : ∀ (l : List VkLayerDbgFunctionState) (b : Bool),
      l.foldl (fun acc cb => acc && cb.IsDefault) b = (b && l.all (fun cb => cb.IsDefault)) := by
    intro l
    induction l with
    | nil => intro b; simp
    | cons cb rest ih => intro b; simp [ih, Bool.and_assoc]
  simpa using aux callbacks true

/-- With the default-eligibility flag true, the firing entries are exactly the
scheme-filter matches. -/
theorem firingIndices_of_use_default (ctx : DispatchCtx) (h : ctx.use_default = true) :
    ∀ (cbs : List VkLayerDbgFunctionState) (index : Nat),
      firingIndices ctx cbs index = schemeMatchIndices ctx cbs index := by
  intro cbs
  induction cbs with
  | nil => intro i; rfl
  | cons cb rest ih =>
    intro i
    simp [firingIndices, schemeMatchIndices, callbackFires, schemeFilterMatches, h, ih]

/-- With the default-eligibility flag false, the firing entries are exactly the
non-default scheme-filter matches. -/
theorem firingIndices_of_not_use_default (ctx : DispatchCtx) (h : ctx.use_default = false) :
    ∀ (cbs : List VkLayerDbgFunctionState) (index : Nat),
      firingIndices ctx cbs index = nonDefaultSchemeMatchIndices ctx cbs index := by
  intro cbs
  induction cbs with
  | nil => intro i; rfl
  | cons cb rest ih =>
    intro i
    simp [firingIndices, nonDefaultSchemeMatchIndices, callbackFires, schemeFilterMatches, h, ih]

/-- C4: during a single dispatch a default-role sink is eligible exactly when
every registered entry is default-role.  When all entries are default the
invocations are exactly the scheme-filter matches (defaults included); when some
non-default entry is registered, the invocations are exactly the non-default
scheme-filter matches, and in particular every invoked entry is non-default.
Applying the first conjunct to the state after removing the last non-default
sink shows default sinks become eligible again on the next dispatch. -/
theorem C4_default_suppression (d : debug_report_data)
    (msg_flags object_type src_object location : Nat)
    (layer_pfx message : String) (text_vuid : Option String) :
    ((∀ cb ∈ d.debug_callback_list, cb.IsDefault = true) →
      (debug_log_msg_full d msg_flags object_type src_object location layer_pfx message text_vuid).2.map
          Invocation.index =
        schemeMatchIndices (dispatchCtxOf d msg_flags object_type src_object location layer_pfx message text_vuid)
          d.debug_callback_list 0) ∧
    ((∃ cb ∈ d.debug_callback_list, cb.IsDefault = false) →
      ((debug_log_msg_full d msg_flags object_type src_object location layer_pfx message text_vuid).2.map
          Invocation.index =
        nonDefaultSchemeMatchIndices (dispatchCtxOf d msg_flags object_type src_object location layer_pfx message text_vuid)
          d.debug_callback_list 0) ∧
      ∀ inv ∈ (debug_log_msg_full d msg_flags object_type src_object location layer_pfx message text_vuid).2,
        ∀ cb, d.debug_callback_list.get? inv.index = some cb → cb.IsDefault = false) := by
  constructor
  · intro hall
    have hud : (dispatchCtxOf d msg_flags object_type src_object location layer_pfx message text_vuid).use_default = true := by
      simp only [dispatchCtxOf, useDefaultCallbacks_eq_all]
      exact List.all_eq_true.mpr hall
    simp only [debug_log_msg_full]
    rw [dispatchLoop_map_index, firingIndices_of_use_default _ hud]
  · intro hnd
    have hud : (dispatchCtxOf d msg_flags object_type src_object location layer_pfx message text_vuid).use_default = false := by
      simp only [dispatchCtxOf, useDefaultCallbacks_eq_all]
      obtain ⟨cb, hmem, hfalse⟩ := hnd
      rcases hall : d.debug_callback_list.all (fun cb => cb.IsDefault) with _ | _
      · rfl
      · have := List.all_eq_true.mp hall cb hmem
        rw [hfalse] at this
        cases this
    constructor
    · simp only [debug_log_msg_full]
      rw [dispatchLoop_map_index, firingIndices_of_not_use_default _ hud]
    · intro inv hmem cb hget
      obtain ⟨k, cb2, hget2, hidx, hfire⟩ :=
        dispatchLoop_inv_entry _ _ _ _ _ inv hmem
      have hk : inv.index = k := by omega
      rw [hk, hget2] at hget
      injection hget with hcb
      subst hcb
      revert hfire
      simp only [callbackFires, hud]
      cases cb2.IsDefault <;> simp

/-- A default-role legacy sink (handle 100) matching every legacy flag. -/
def c4DefaultEntry : VkLayerDbgFunctionState :=
  { callback_status := DEBUG_CALLBACK_DEFAULT,
    debug_report_callback_object := 100,
    debug_report_callback_function_ptr := fun _ => false,
    debug_report_msg_flags := 0xFF,
    debug_utils_callback_object := 0,
    debug_utils_msg_flags := 0,
    debug_utils_msg_type := 0,
    debug_utils_callback_function_ptr := fun _ _ _ _ => false,
    pUserData := 0 }

/-- An ordinary legacy sink (handle 200) matching every legacy flag. -/
def c4OrdinaryEntry : VkLayerDbgFunctionState :=
  { callback_status := 0,
    debug_report_callback_object := 200,
    debug_report_callback_function_ptr := fun _ => false,
    debug_report_msg_flags := 0xFF,
    debug_utils_callback_object := 0,
    debug_utils_msg_flags := 0,
    debug_utils_msg_type := 0,
    debug_utils_callback_function_ptr := fun _ _ _ _ => false,
    pUserData := 0 }

/-- A registry holding one default sink followed by one ordinary sink. -/
def c4State : debug_report_data :=
  { emptyDebugReportData with debug_callback_list := [c4DefaultEntry, c4OrdinaryEntry] }

/-- Witness for C4_default_suppression: with a default and an ordinary sink both
matching the event, only the ordinary sink (position 1) is invoked; after
removing the ordinary sink by its handle, the default sink (position 0) is
invoked on the next dispatch. -/
theorem C4_default_suppression_witness :
    (∃ cb ∈ c4State.debug_callback_list, cb.IsDefault = false) ∧
    (debug_log_msg_full c4State 8 0 0 0 "L" "m" none).2.map Invocation.index = [1] ∧
    (∀ cb ∈ (RemoveDebugUtilsCallback c4State 200).debug_callback_list, cb.IsDefault = true) ∧
    (debug_log_msg_full (RemoveDebugUtilsCallback c4State 200) 8 0 0 0 "L" "m" none).2.map
      Invocation.index = [0] := by
  have hnd : ∃ cb ∈ c4State.debug_callback_list, cb.IsDefault = false :=
    ⟨c4OrdinaryEntry, by simp [c4State, emptyDebugReportData], by decide⟩
  have hall : ∀ cb ∈ (RemoveDebugUtilsCallback c4State 200).debug_callback_list,
      cb.IsDefault = true := by
    intro cb hcb
    have hlist : (RemoveDebugUtilsCallback c4State 200).debug_callback_list = [c4DefaultEntry] := rfl
    rw [hlist] at hcb
    simp only [List.mem_singleton] at hcb
    subst hcb
    decide
  refine ⟨hnd, ?_, hall, ?_⟩
  · have h := ((C4_default_suppression c4State 8 0 0 0 "L" "m" none).2 hnd).1
    rw [h]
    decide
  · have h := (C4_default_suppression (RemoveDebugUtilsCallback c4State 200) 8 0 0 0 "L" "m" none).1 hall
    rw [h]
    decide

/-! ## Claim C6: per-sink payloads -/

/-- The message strings handed to the legacy report sinks of a dispatch, in
invocation order. -/
def reportMessages (trace : List Invocation) : List String :=
  trace.filterMap fun inv =>
    match inv with
    | .report _ m _ => some m
    | .utils _ _ _ => none

/-- The sequence of messages successive firing legacy sinks receive when an
identifier prefix p is inserted at the front of the shared message before each
legacy invocation: the first sink sees one copy of p before the base message,
the second sees two, and so on. -/
def vuidMsgList (p : String) (base : String) : Nat → List String
  | 0 => []
  | n + 1 => (p ++ base) :: vuidMsgList p (p ++ base) n

/-- Whether an entry fires as a legacy report sink. -/
def legacyCallbackFires (ctx : DispatchCtx) (cb : VkLayerDbgFunctionState) : Bool :=
  !(cb.IsDefault && !ctx.use_default) &&
    (!cb.IsUtils && (cb.debug_report_msg_flags &&& ctx.msg_flags != 0))

/-- The number of entries firing as legacy report sinks. -/
def countFiringLegacy (ctx : DispatchCtx) : List VkLayerDbgFunctionState → Nat
  | [] => 0
  | cb :: rest =>
    if legacyCallbackFires ctx cb then countFiringLegacy ctx rest + 1
    else countFiringLegacy ctx rest

theorem reportMessages_nil : reportMessages [] = [] := rfl

theorem reportMessages_cons_report (i : Nat) (m : String) (r : Bool) (t : List Invocation) :
    reportMessages (Invocation.report i m r :: t) = m :: reportMessages t := rfl

theorem reportMessages_cons_utils (i : Nat) (dt : VkDebugUtilsMessengerCallbackDataEXT)
    (r : Bool) (t : List Invocation) :
    reportMessages (Invocation.utils i dt r :: t) = reportMessages t := rfl

/-- With a present identifier, the legacy sinks of one dispatch receive the
successively prefixed messages: one inserted copy of the literal prefix
space-bracket-space-id-space-bracket-space per firing legacy sink, accumulated
in the shared message string. -/
theorem dispatchLoop_report_messages (ctx : DispatchCtx) (v : String)
    (hv : ctx.text_vuid = some v) (cbs : List VkLayerDbgFunctionState) :
    ∀ (index : Nat) (bail : Bool) (msg : String),
      reportMessages (dispatchLoop ctx cbs index bail msg).2.2 =
        vuidMsgList (" [ " ++ v ++ " ] ") msg (countFiringLegacy ctx cbs) := by
  induction cbs with
  | nil => intro i b m; rfl
  | cons cb rest ih =>
    intro i b m
    simp only [dispatchLoop, countFiringLegacy, legacyCallbackFires, hv]
    by_cases h1 : (cb.IsDefault && !ctx.use_default) = true <;>
    by_cases h2 : (!cb.IsUtils && (cb.debug_report_msg_flags &&& ctx.msg_flags != 0)) = true <;>
    by_cases h3 : (cb.IsUtils && (cb.debug_utils_msg_flags &&& ctx.severity != 0) &&
        (cb.debug_utils_msg_type &&& ctx.types != 0)) = true <;>
    simp [h1, h2, h3, ih, reportMessages_nil, reportMessages_cons_report,
      reportMessages_cons_utils, vuidMsgList, String.append_assoc]

/-- A single ordinary legacy sink for the C6 counterexample. -/
def c6LegacyEntry : VkLayerDbgFunctionState :=
  { callback_status := 0,
    debug_report_callback_object := 300,
    debug_report_callback_function_ptr := fun _ => false,
    debug_report_msg_flags := 0xFF,
    debug_utils_callback_object := 0,
    debug_utils_msg_flags := 0,
    debug_utils_msg_type := 0,
    debug_utils_callback_function_ptr := fun _ _ _ _ => false,
    pUserData := 0 }

/-- A registry holding the single legacy sink. -/
def c6State : debug_report_data :=
  { emptyDebugReportData with debug_callback_list := [c6LegacyEntry] }

/-- An ordinary modern sink matching error severity and validation type. -/
def c6UtilsEntry : VkLayerDbgFunctionState :=
  { callback_status := DEBUG_CALLBACK_UTILS,
    debug_report_callback_object := 0,
    debug_report_callback_function_ptr := fun _ => false,
    debug_report_msg_flags := 0,
    debug_utils_callback_object := 400,
    debug_utils_msg_flags := 0x1111,
    debug_utils_msg_type := 0x7,
    debug_utils_callback_function_ptr := fun _ _ _ _ => false,
    pUserData := 0 }

/-- A registry holding the legacy sink followed by the modern sink. -/
def c6State2 : debug_report_data :=
  { emptyDebugReportData with debug_callback_list := [c6LegacyEntry, c6UtilsEntry] }

/-- Counterexample to C6 as stated: with identifier X present (not the
unclassified sentinel), the firing legacy sink receives the message with the
prefix space-bracket-space-X-space-bracket-space, that is with a leading space,
not the claimed literal form bracket-space-X-space-bracket-space. -/
theorem C6_counterexample :
    reportMessages (debug_log_msg_full c6State 8 0 0 0 "L" "m" (some "X")).2 =
      [" [ X ] Object: VK_NULL_HANDLE (Type = 0) | m"] ∧
    reportMessages (debug_log_msg_full c6State 8 0 0 0 "L" "m" (some "X")).2 ≠
      ["[ X ] Object: VK_NULL_HANDLE (Type = 0) | m"] := by
  constructor <;> decide

/-- C6 as amended: for each legacy-scheme sink that fires during one dispatch,
when the diagnostic identifier pointer is present the identifier is inserted at
the front of the shared legacy message in the literal form
space-bracket-space-id-space-bracket-space before invocation, so the j-th firing
legacy sink receives j accumulated copies of the prefix before the composed
message; each firing modern-scheme sink receives the structured callback-data
record assembled before the loop, unmodified. -/
theorem C6_legacy_vuid_amended (d : debug_report_data)
    (msg_flags object_type src_object location : Nat)
    (layer_pfx message v : String) :
    reportMessages (debug_log_msg_full d msg_flags object_type src_object location
        layer_pfx message (some v)).2 =
      vuidMsgList (" [ " ++ v ++ " ] ") (composeBaseMessage d object_type src_object message)
        (countFiringLegacy
          (dispatchCtxOf d msg_flags object_type src_object location layer_pfx message (some v))
          d.debug_callback_list) ∧
    ∀ (j : Nat) (dt : VkDebugUtilsMessengerCallbackDataEXT) (r : Bool),
      Invocation.utils j dt r ∈ (debug_log_msg_full d msg_flags object_type src_object location
          layer_pfx message (some v)).2 →
        dt = dispatchCallbackData d object_type src_object message (some v) := by
  constructor
  · simp only [debug_log_msg_full]
    exact dispatchLoop_report_messages _ v rfl _ _ _ _
  · intro j dt r hmem
    simp only [debug_log_msg_full] at hmem
    exact dispatchLoop_utils_payload _ _ _ _ _ _ _ _ hmem

/-- Witness for C6_legacy_vuid_amended: with one firing legacy sink followed
by one firing modern sink, the legacy sink receives one copy of the prefix and
the modern sink receives exactly the assembled callback-data record. -/
theorem C6_legacy_vuid_amended_witness :
    reportMessages (debug_log_msg_full c6State2 8 0 0 0 "L" "m" (some "X")).2 =
      vuidMsgList " [ X ] " (composeBaseMessage c6State2 0 0 "m") 1 ∧
    Invocation.utils 1 (dispatchCallbackData c6State2 0 0 "m" (some "X")) false ∈
      (debug_log_msg_full c6State2 8 0 0 0 "L" "m" (some "X")).2 ∧
    ∀ dt, Invocation.utils 1 dt false ∈
        (debug_log_msg_full c6State2 8 0 0 0 "L" "m" (some "X")).2 →
      dt = dispatchCallbackData c6State2 0 0 "m" (some "X") := by
  have h := C6_legacy_vuid_amended c6State2 8 0 0 0 "L" "m" "X"
  refine ⟨?_, by decide, fun dt hmem => h.2 1 dt false hmem⟩
  rw [h.1]
  rfl

/-! ## Claim C9: instance-scoped callback activation (source lines 516 to 532) -/

/-- Modelled from the spec: lvl_find_in_chain over the messenger create-info
sType (vk_typemap_helper.h, not part of src) walks the pNext chain and returns
the first matching structure; the loop then continues from the pNext of that
structure, returned here as the list suffix after the match. -/
def findUtilsInChain : List ChainItem →
    Option (VkDebugUtilsMessengerCreateInfoEXT × List ChainItem)
  | [] => none
  | ChainItem.utils ci :: rest => some (ci, rest)
  | ChainItem.report _ :: rest => findUtilsInChain rest
  | ChainItem.other _ :: rest => findUtilsInChain rest

/-- Modelled from the spec: lvl_find_in_chain over the report-callback
create-info sType. -/
def findReportInChain : List ChainItem →
    Option (VkDebugReportCallbackCreateInfoEXT × List ChainItem)
  | [] => none
  | ChainItem.report ci :: rest => some (ci, rest)
  | ChainItem.utils _ :: rest => findReportInChain rest
  | ChainItem.other _ :: rest => findReportInChain rest

/-- The first for-loop of ActivateInstanceDebugCallbacks (source lines 518 to
524): find the next messenger create info from the cursor, register it as an
instance-temporary utils callback with a null handle, advance the cursor past
it, repeat until no match.  The C++ infinite for-loop terminates because each
iteration strictly advances the cursor along the finite chain; the fuel
argument, set to the chain length by the caller, bounds the iterations the same
way. -/
def activateUtilsLoop : Nat → debug_report_data → List ChainItem →
    debug_report_data × List ChainItem
  | 0, d, current => (d, current)
  | fuel + 1, d, current =>
    match findUtilsInChain current with
    | none => (d, current)
    | some (ci, rest) =>
      activateUtilsLoop fuel
        (layer_create_callback (DEBUG_CALLBACK_UTILS ||| DEBUG_CALLBACK_INSTANCE) d
          (CreateInfo.utils ci) 0).1
        rest

/-- The second for-loop of ActivateInstanceDebugCallbacks (source lines 525 to
531), which continues from the cursor position the first loop finished at. -/
def activateReportLoop : Nat → debug_report_data → List ChainItem →
    debug_report_data × List ChainItem
  | 0, d, current => (d, current)
  | fuel + 1, d, current =>
    match findReportInChain current with
    | none => (d, current)
    | some (ci, rest) =>
      activateReportLoop fuel
        (layer_create_callback DEBUG_CALLBACK_INSTANCE d (CreateInfo.report ci) 0).1
        rest

/-- Embedding of ActivateInstanceDebugCallbacks (source lines 516 to 532): the
utils loop starts from the head of the instance pNext chain; the report loop
starts from wherever the utils loop left the cursor. -/
def ActivateInstanceDebugCallbacks (d : debug_report_data) : debug_report_data :=
  let r1 := activateUtilsLoop d.instance_pnext_chain.length d d.instance_pnext_chain
  (activateReportLoop r1.2.length r1.1 r1.2).1

/-- Whether a chain item is a messenger create info. -/
def ChainItem.isUtilsCI : ChainItem → Bool
  | .utils _ => true
  | .report _ => false
  | .other _ => false

/-- All messenger create infos of a chain, in chain order. -/
def chainUtilsCIs : List ChainItem → List VkDebugUtilsMessengerCreateInfoEXT :=
  List.filterMap fun item =>
    match item with
    | ChainItem.utils ci => some ci
    | _ => none

/-- All report-callback create infos of a chain, in chain order. -/
def chainReportCIs : List ChainItem → List VkDebugReportCallbackCreateInfoEXT :=
  List.filterMap fun item =>
    match item with
    | ChainItem.report ci => some ci
    | _ => none

/-- The suffix of a chain strictly after its last messenger create info; the
whole chain when it holds none. -/
def suffixAfterLastUtils : List ChainItem → List ChainItem
  | [] => []
  | x :: xs =>
    if xs.any ChainItem.isUtilsCI then suffixAfterLastUtils xs
    else if x.isUtilsCI then xs else x :: xs

/-- The scheme- and filter-relevant fields of a callback entry, used to state
which entries a registration sequence appends without fixing the synthetic
handle values or comparing function values. -/
structure EntryDesc where
  callback_status : Nat
  is_utils : Bool
  legacy_mask : Nat
  sev_mask : Nat
  type_mask : Nat
  user_data : Nat
deriving DecidableEq

/-- The descriptor of a callback entry. -/
def entryDesc (cb : VkLayerDbgFunctionState) : EntryDesc :=
  { callback_status := cb.callback_status, is_utils := cb.IsUtils,
    legacy_mask := cb.debug_report_msg_flags, sev_mask := cb.debug_utils_msg_flags,
    type_mask := cb.debug_utils_msg_type, user_data := cb.pUserData }

/-- The descriptor of the instance-temporary entry registered for a messenger
create info. -/
def utilsInstanceDesc (ci : VkDebugUtilsMessengerCreateInfoEXT) : EntryDesc :=
  { callback_status := DEBUG_CALLBACK_UTILS ||| DEBUG_CALLBACK_INSTANCE, is_utils := true,
    legacy_mask := 0, sev_mask := ci.messageSeverity, type_mask := ci.messageType,
    user_data := ci.pUserData }

/-- The descriptor of the instance-temporary entry registered for a
report-callback create info. -/
def reportInstanceDesc (ci : VkDebugReportCallbackCreateInfoEXT) : EntryDesc :=
  { callback_status := DEBUG_CALLBACK_INSTANCE, is_utils := false,
    legacy_mask := ci.flags, sev_mask := 0, type_mask := 0,
    user_data := ci.pUserData }

theorem findUtilsInChain_length (c : List ChainItem) (ci : VkDebugUtilsMessengerCreateInfoEXT)
    (rest : List ChainItem) (h : findUtilsInChain c = some (ci, rest)) :
    rest.length < c.length := by
  induction c with
  | nil => simp [findUtilsInChain] at h
  | cons x xs ih =>
    cases x with
    | utils ci2 =>
      simp only [findUtilsInChain] at h
      injection h with h2
      injection h2 with hci hrest
      subst hrest
      simp
    | report ci2 =>
      simp only [findUtilsInChain] at h
      have := ih h
      simp
      omega
    | other st =>
      simp only [findUtilsInChain] at h
      have := ih h
      simp
      omega

theorem findReportInChain_length (c : List ChainItem) (ci : VkDebugReportCallbackCreateInfoEXT)
    (rest : List ChainItem) (h : findReportInChain c = some (ci, rest)) :
    rest.length < c.length := by
  induction c with
  | nil => simp [findReportInChain] at h
  | cons x xs ih =>
    cases x with
    | report ci2 =>
      simp only [findReportInChain] at h
      injection h with h2
      injection h2 with hci hrest
      subst hrest
      simp
    | utils ci2 =>
      simp only [findReportInChain] at h
      have := ih h
      simp
      omega
    | other st =>
      simp only [findReportInChain] at h
      have := ih h
      simp
      omega

theorem suffixAfterLastUtils_of_no_utils (l : List ChainItem)
    (h : l.any ChainItem.isUtilsCI = false) : suffixAfterLastUtils l = l := by
  cases l with
  | nil => rfl
  | cons x xs =>
    simp only [List.any_cons, Bool.or_eq_false_iff] at h
    simp [suffixAfterLastUtils, h.1, h.2]

theorem findUtilsInChain_none (c : List ChainItem) (h : findUtilsInChain c = none) :
    chainUtilsCIs c = [] ∧ suffixAfterLastUtils c = c ∧ c.any ChainItem.isUtilsCI = false := by
  induction c with
  | nil => exact ⟨rfl, rfl, rfl⟩
  | cons x xs ih =>
    cases x with
    | utils ci => simp [findUtilsInChain] at h
    | report ci =>
      simp only [findUtilsInChain] at h
      obtain ⟨h1, h2, h3⟩ := ih h
      refine ⟨?_, ?_, ?_⟩
      · simp [chainUtilsCIs] at h1 ⊢
        exact h1
      · simp [suffixAfterLastUtils, h3, ChainItem.isUtilsCI]
      · simp [h3, ChainItem.isUtilsCI]
    | other st =>
      simp only [findUtilsInChain] at h
      obtain ⟨h1, h2, h3⟩ := ih h
      refine ⟨?_, ?_, ?_⟩
      · simp [chainUtilsCIs] at h1 ⊢
        exact h1
      · simp [suffixAfterLastUtils, h3, ChainItem.isUtilsCI]
      · simp [h3, ChainItem.isUtilsCI]

theorem findUtilsInChain_some (c : List ChainItem) (ci : VkDebugUtilsMessengerCreateInfoEXT)
    (rest : List ChainItem) (h : findUtilsInChain c = some (ci, rest)) :
    chainUtilsCIs c = ci :: chainUtilsCIs rest ∧
    suffixAfterLastUtils c = suffixAfterLastUtils rest ∧
    c.any ChainItem.isUtilsCI = true := by
  induction c with
  | nil => simp [findUtilsInChain] at h
  | cons x xs ih =>
    cases x with
    | utils ci2 =>
      simp only [findUtilsInChain] at h
      injection h with h2
      injection h2 with hci hrest
      subst hci
      subst hrest
      refine ⟨by simp [chainUtilsCIs], ?_, by simp [ChainItem.isUtilsCI]⟩
      by_cases hany : xs.any ChainItem.isUtilsCI = true
      · simp [suffixAfterLastUtils, hany]
      · have hfalse : xs.any ChainItem.isUtilsCI = false := by
          cases hxs : xs.any ChainItem.isUtilsCI
          · rfl
          · exact absurd hxs hany
        simp [suffixAfterLastUtils, hfalse, ChainItem.isUtilsCI,
          suffixAfterLastUtils_of_no_utils xs hfalse]
    | report ci2 =>
      simp only [findUtilsInChain] at h
      obtain ⟨h1, h2, h3⟩ := ih h
      refine ⟨?_, ?_, ?_⟩
      · simp [chainUtilsCIs] at h1 ⊢
        exact h1
      · simp [suffixAfterLastUtils, h3, h2]
      · simp [h3]
    | other st =>
      simp only [findUtilsInChain] at h
      obtain ⟨h1, h2, h3⟩ := ih h
      refine ⟨?_, ?_, ?_⟩
      · simp [chainUtilsCIs] at h1 ⊢
        exact h1
      · simp [suffixAfterLastUtils, h3, h2]
      · simp [h3]

theorem findReportInChain_none (c : List ChainItem) (h : findReportInChain c = none) :
    chainReportCIs c = [] := by
  induction c with
  | nil => rfl
  | cons x xs ih =>
    cases x with
    | report ci => simp [findReportInChain] at h
    | utils ci =>
      simp only [findReportInChain] at h
      have h1 := ih h
      simp [chainReportCIs] at h1 ⊢
      exact h1
    | other st =>
      simp only [findReportInChain] at h
      have h1 := ih h
      simp [chainReportCIs] at h1 ⊢
      exact h1

theorem findReportInChain_some (c : List ChainItem) (ci : VkDebugReportCallbackCreateInfoEXT)
    (rest : List ChainItem) (h : findReportInChain c = some (ci, rest)) :
    chainReportCIs c = ci :: chainReportCIs rest := by
  induction c with
  | nil => simp [findReportInChain] at h
  | cons x xs ih =>
    cases x with
    | report ci2 =>
      simp only [findReportInChain] at h
      injection h with h2
      injection h2 with hci hrest
      subst hci
      subst hrest
      simp [chainReportCIs]
    | utils ci2 =>
      simp only [findReportInChain] at h
      have h1 := ih h
      simp [chainReportCIs] at h1 ⊢
      exact h1
    | other st =>
      simp only [findReportInChain] at h
      have h1 := ih h
      simp [chainReportCIs] at h1 ⊢
      exact h1

/-- Registering an instance-temporary utils callback appends exactly the
corresponding entry descriptor. -/
theorem layer_create_callback_utils_instance_desc (d : debug_report_data)
    (ci : VkDebugUtilsMessengerCreateInfoEXT) :
    (layer_create_callback (DEBUG_CALLBACK_UTILS ||| DEBUG_CALLBACK_INSTANCE) d
        (CreateInfo.utils ci) 0).1.debug_callback_list.map entryDesc =
      d.debug_callback_list.map entryDesc ++ [utilsInstanceDesc ci] := by
  simp only [layer_create_callback]
  rw [if_pos (by simp [VkLayerDbgFunctionState.IsUtils, DEBUG_CALLBACK_UTILS,
    DEBUG_CALLBACK_INSTANCE])]
  rw [SetDebugUtilsSeverityFlags_list]
  simp [entryDesc, utilsInstanceDesc, CreateInfo.userData, VkLayerDbgFunctionState.IsUtils,
    DEBUG_CALLBACK_UTILS, DEBUG_CALLBACK_INSTANCE]

/-- Registering an instance-temporary report callback appends exactly the
corresponding entry descriptor. -/
theorem layer_create_callback_report_instance_desc (d : debug_report_data)
    (ci : VkDebugReportCallbackCreateInfoEXT) :
    (layer_create_callback DEBUG_CALLBACK_INSTANCE d
        (CreateInfo.report ci) 0).1.debug_callback_list.map entryDesc =
      d.debug_callback_list.map entryDesc ++ [reportInstanceDesc ci] := by
  simp only [layer_create_callback]
  rw [if_neg (by simp [VkLayerDbgFunctionState.IsUtils, DEBUG_CALLBACK_UTILS,
    DEBUG_CALLBACK_INSTANCE])]
  rw [SetDebugUtilsSeverityFlags_list]
  simp [entryDesc, reportInstanceDesc, CreateInfo.userData, VkLayerDbgFunctionState.IsUtils,
    DEBUG_CALLBACK_UTILS, DEBUG_CALLBACK_INSTANCE]

/-- The utils activation loop registers one instance-temporary entry per
messenger create info found, in chain order, and leaves the cursor strictly
after the last one found. -/
theorem activateUtilsLoop_spec :
    ∀ (fuel : Nat) (d : debug_report_data) (c : List ChainItem), c.length ≤ fuel →
      (activateUtilsLoop fuel d c).1.debug_callback_list.map entryDesc =
        d.debug_callback_list.map entryDesc ++ (chainUtilsCIs c).map utilsInstanceDesc ∧
      (activateUtilsLoop fuel d c).2 = suffixAfterLastUtils c := by
  intro fuel
  induction fuel with
  | zero =>
    intro d c hc
    have hnil : c = [] := List.length_eq_zero.mp (Nat.le_zero.mp hc)
    subst hnil
    exact ⟨by simp [activateUtilsLoop, chainUtilsCIs], rfl⟩
  | succ n ih =>
    intro d c hc
    cases hfind : findUtilsInChain c with
    | none =>
      obtain ⟨h1, h2, _⟩ := findUtilsInChain_none c hfind
      simp [activateUtilsLoop, hfind, h1, h2]
    | some p =>
      obtain ⟨ci, rest⟩ := p
      obtain ⟨h1, h2, _⟩ := findUtilsInChain_some c ci rest hfind
      have hlen : rest.length ≤ n := by
        have := findUtilsInChain_length c ci rest hfind
        omega
      have hrec := ih (layer_create_callback (DEBUG_CALLBACK_UTILS ||| DEBUG_CALLBACK_INSTANCE) d
        (CreateInfo.utils ci) 0).1 rest hlen
      refine ⟨?_, ?_⟩
      · simp only [activateUtilsLoop, hfind]
        rw [hrec.1, layer_create_callback_utils_instance_desc, h1]
        simp
      · simp only [activateUtilsLoop, hfind]
        rw [hrec.2, h2]

/-- The report activation loop registers one instance-temporary entry per
report create info found from its starting cursor, in chain order. -/
theorem activateReportLoop_spec :
    ∀ (fuel : Nat) (d : debug_report_data) (c : List ChainItem), c.length ≤ fuel →
      (activateReportLoop fuel d c).1.debug_callback_list.map entryDesc =
        d.debug_callback_list.map entryDesc ++ (chainReportCIs c).map reportInstanceDesc := by
  intro fuel
  induction fuel with
  | zero =>
    intro d c hc
    have hnil : c = [] := List.length_eq_zero.mp (Nat.le_zero.mp hc)
    subst hnil
    simp [activateReportLoop, chainReportCIs]
  | succ n ih =>
    intro d c hc
    cases hfind : findReportInChain c with
    | none =>
      have h1 := findReportInChain_none c hfind
      simp [activateReportLoop, hfind, h1]
    | some p =>
      obtain ⟨ci, rest⟩ := p
      have h1 := findReportInChain_some c ci rest hfind
      have hlen : rest.length ≤ n := by
        have := findReportInChain_length c ci rest hfind
        omega
      have hrec := ih (layer_create_callback DEBUG_CALLBACK_INSTANCE d
        (CreateInfo.report ci) 0).1 rest hlen
      simp only [activateReportLoop, hfind]
      rw [hrec, layer_create_callback_report_instance_desc, h1]
      simp

/-- C9 as amended: activation registers one instance-temporary entry per
messenger create info anywhere in the chain, in chain order, followed by one
instance-temporary entry per report create info occurring strictly after the
last messenger create info (the whole chain when there is none), in chain
order.  Report create infos before the last messenger create info are skipped,
because the second loop starts its scan at the cursor position the first loop
reached. -/
theorem C9_activation_amended (d : debug_report_data) :
    (ActivateInstanceDebugCallbacks d).debug_callback_list.map entryDesc =
      d.debug_callback_list.map entryDesc ++
      (chainUtilsCIs d.instance_pnext_chain).map utilsInstanceDesc ++
      (chainReportCIs (suffixAfterLastUtils d.instance_pnext_chain)).map reportInstanceDesc := by
  have h1 := activateUtilsLoop_spec d.instance_pnext_chain.length d d.instance_pnext_chain
    (Nat.le_refl _)
  simp only [ActivateInstanceDebugCallbacks]
  have h2 := activateReportLoop_spec
    (activateUtilsLoop d.instance_pnext_chain.length d d.instance_pnext_chain).2.length
    (activateUtilsLoop d.instance_pnext_chain.length d d.instance_pnext_chain).1
    (activateUtilsLoop d.instance_pnext_chain.length d d.instance_pnext_chain).2
    (Nat.le_refl _)
  rw [h2, h1.1, h1.2]

/-- A report create info placed before a messenger create info in the chain,
used as the C9 counterexample. -/
def c9ReportCI : VkDebugReportCallbackCreateInfoEXT :=
  { flags := 1, pfnCallback := fun _ => false, pUserData := 0 }

/-- The messenger create info following it. -/
def c9UtilsCI : VkDebugUtilsMessengerCreateInfoEXT :=
  { messageSeverity := 1, messageType := 1,
    pfnUserCallback := fun _ _ _ _ => false, pUserData := 0 }

/-- A dispatch state whose instance chain is the report create info followed by
the messenger create info. -/
def c9State : debug_report_data :=
  { emptyDebugReportData with
    instance_pnext_chain := [ChainItem.report c9ReportCI, ChainItem.utils c9UtilsCI] }

/-- Counterexample to C9 as stated: on a chain holding a report create info
followed by a messenger create info, activation registers only one entry (the
messenger one), not one entry per descriptor in encounter order: the report
descriptor is missed because the second loop starts scanning after the last
messenger create info. -/
theorem C9_counterexample :
    (ActivateInstanceDebugCallbacks c9State).debug_callback_list.map entryDesc =
      [utilsInstanceDesc c9UtilsCI] ∧
    (ActivateInstanceDebugCallbacks c9State).debug_callback_list.length = 1 ∧
    (ActivateInstanceDebugCallbacks c9State).debug_callback_list.length ≠ 2 := by
  refine ⟨by decide, by decide, by decide⟩
